import Mathlib

/-!
Verification development for the ACES co-evolutionary adversarial simulator.

This file gives a shallow embedding, in Lean 4, of the core data model and
operations of the simulator: the technique catalog, the network model, the
attacker and defender genomes with their genetic operators, the per-matchup
simulation engine, the fitness scoring, the stagnation detector, and the
pieces of the co-evolution driver relevant to configuration handling,
hall-of-fame opponent mixing and immigrant injection.

Python floats are modelled as rationals (ℚ).  Python sets are modelled as
lists with insertion-order iteration and membership-checked insertion; the
verified properties do not depend on iteration order.  Python dicts are
modelled as association lists.  The pseudo-random generator is modelled as
an oracle: a stream of natural numbers (for integer draws and choices) and
a stream of rationals clamped to the unit interval (for `random()` and
`uniform(a, b)` draws), consumed in exactly the order the source consumes
its `random.Random` calls.
-/

/-- Clamp a rational to the unit interval [0, 1]; models the range of a
`random.random()` draw. -/
def clampUnit (q : ℚ) : ℚ := max 0 (min q 1)

/-- Oracle model of `random.Random`: two streams of raw draws plus a cursor. -/
structure Rng where
  nats : Nat → Nat
  units : Nat → ℚ
  idx : Nat

/-- Consume one raw natural draw. -/
def Rng.nextNat (r : Rng) : Nat × Rng :=
  (r.nats r.idx, { r with idx := r.idx + 1 })

/-- Consume one unit-interval draw; models `rng.random()`. -/
def Rng.nextUnit (r : Rng) : ℚ × Rng :=
  (clampUnit (r.units r.idx), { r with idx := r.idx + 1 })

/-- Model of `rng.randint(a, b)` (inclusive bounds; all call sites satisfy
`a ≤ b`, where Python would otherwise raise). -/
def Rng.randint (a b : Nat) (r : Rng) : Nat × Rng :=
  let (n, r') := r.nextNat
  (a + n % (b + 1 - a), r')

/-- Model of `rng.choice(xs)`; the default is returned only for the empty
list, on which Python would raise. -/
def Rng.choice {α : Type} (xs : List α) (dflt : α) (r : Rng) : α × Rng :=
  let (n, r') := r.nextNat
  (xs.getD (n % xs.length) dflt, r')

/-- Model of `rng.uniform(a, b)`: a point of the segment [a, b]. -/
def Rng.uniform (a b : ℚ) (r : Rng) : ℚ × Rng :=
  let (u, r') := r.nextUnit
  (a + (b - a) * u, r')

/-- Model of `rng.sample(xs, k)`: draw `k` elements without replacement
(by repeatedly removing a drawn position); returns fewer when `xs` runs out. -/
def Rng.sample {α : Type} : List α → Nat → Rng → List α × Rng
  | _, 0, r => ([], r)
  | [], _ + 1, r => ([], r)
  | x :: xs, k + 1, r =>
      let (n, r') := r.nextNat
      let i := n % (x :: xs).length
      let picked := (x :: xs).getD i x
      let (rest, r'') := Rng.sample ((x :: xs).eraseIdx i) k r'
      (picked :: rest, r'')

/-- Model of Python `round(q, 2)`.  (Python uses round-half-even on floats;
the half-cent tie behaviour is irrelevant to every property proved here,
which only uses that rounding preserves bounds.) -/
def pyRound2 (q : ℚ) : ℚ := ((round (q * 100) : ℤ) : ℚ) / 100

/-- Python `set.add`, on the list model of a set. -/
def setAdd (xs : List String) (x : String) : List String :=
  if x ∈ xs then xs else xs ++ [x]

/-- Python `max(xs)` on a nonempty list of rationals (0 on the empty list,
where Python would raise). -/
def qListMax : List ℚ → ℚ
  | [] => 0
  | x :: xs => xs.foldl max x

/-- Python `min(xs)` on a nonempty list of rationals (0 on the empty list). -/
def qListMin : List ℚ → ℚ
  | [] => 0
  | x :: xs => xs.foldl min x

/-- Python slice `xs[-w:]`.  For `w = 0` Python returns the whole list
(`xs[-0:] = xs[0:]`), not the empty suffix. -/
def lastSlice {α : Type} (xs : List α) (w : Nat) : List α :=
  if w = 0 then xs else xs.drop (xs.length - w)

/-- Lookup with default on an association list; models `dict.get(k, d)`. -/
def alistGetD (m : List (String × ℚ)) (k : String) (d : ℚ) : ℚ :=
  match m.find? (fun p => decide (p.1 = k)) with
  | some p => p.2
  | none => d

/-- Insert-or-update on an association list; models `d[k] = v`. -/
def alistSet (m : List (String × ℚ)) (k : String) (v : ℚ) : List (String × ℚ) :=
  if m.any (fun p => decide (p.1 = k)) then
    m.map (fun p => if p.1 = k then (k, v) else p)
  else
    m ++ [(k, v)]

/-- First element attaining the maximal key; equals the head of a stable
descending sort by `key` (the source sorts with `reverse=True` and takes
element 0). -/
def pickFirstMaxBy (key : String → ℚ) : List String → Option String
  | [] => none
  | x :: xs => some (xs.foldl (fun best h => if key h > key best then h else best) x)

/-- ATT&CK tactics, in kill-chain order (`aces.config.Tactic`). -/
inductive Tactic where
  | initial_access
  | execution
  | persistence
  | privilege_escalation
  | defense_evasion
  | credential_access
  | discovery
  | lateral_movement
  | collection
  | exfiltration
  | impact
deriving DecidableEq, Repr

/-- Precondition kinds (`aces.attack.techniques.PreconditionType`). -/
inductive PreconditionType where
  | position_external
  | position_internal
  | position_on_host
  | privilege_user
  | privilege_admin
  | service_running
  | vulnerability_exists
  | credential_available
  | host_not_isolated
  | os_windows
  | os_linux
  | host_is_dc
  | has_credential_cache
  | data_staged
  | has_internet_access
deriving DecidableEq, Repr

/-- Effect kinds (`aces.attack.techniques.EffectType`). -/
inductive EffectType where
  | gain_foothold
  | elevate_privilege
  | harvest_credentials
  | establish_persistence
  | move_laterally
  | exfiltrate_data
  | execute_command
  | discover_hosts
  | reduce_detection
  | increase_stealth
  | stage_data
  | encrypt_host
  | stop_services
deriving DecidableEq, Repr

/-- A condition checked against simulation state. -/
structure Precondition where
  type : PreconditionType
  service_name : Option String := none
  value : ℚ := 0
deriving DecidableEq, Repr

/-- A state change applied on technique success. -/
structure Effect where
  type : EffectType
  privilege_level : Option String := none
  value : ℚ := 0
deriving DecidableEq, Repr

/-- Definition of a modeled ATT&CK technique. -/
structure TechniqueDef where
  id : String
  name : String
  tactic : Tactic
  preconditions : List Precondition
  effects : List Effect
  base_success_rate : ℚ
  stealth_base : ℚ
  common_data_sources : List String
deriving DecidableEq, Repr

/-- Registry lookup (`TechniqueRegistry.get`; a registry is its list of
techniques, in insertion order). -/
def regFind? (reg : List TechniqueDef) (tid : String) : Option TechniqueDef :=
  reg.find? (fun td => decide (td.id = tid))

/-- Fallback technique used to totalise lookups that Python would fail with
`KeyError`; never reachable under the genome invariants. -/
def dummyTechnique : TechniqueDef :=
  { id := "", name := "", tactic := Tactic.impact, preconditions := [],
    effects := [], base_success_rate := 0, stealth_base := 0,
    common_data_sources := [] }

/-- Total registry lookup. -/
def regGetD (reg : List TechniqueDef) (tid : String) : TechniqueDef :=
  (regFind? reg tid).getD dummyTechnique

/-- `TechniqueRegistry.get_by_tactic`. -/
def getByTactic (reg : List TechniqueDef) (t : Tactic) : List TechniqueDef :=
  reg.filter (fun td => decide (td.tactic = t))

/-- `TechniqueRegistry.get_initial_access`. -/
def getInitialAccess (reg : List TechniqueDef) : List TechniqueDef :=
  getByTactic reg Tactic.initial_access

/-- `TechniqueRegistry.__contains__`. -/
def regContains (reg : List TechniqueDef) (tid : String) : Bool :=
  (regFind? reg tid).isSome

/-- The static technique catalog (`aces.attack.techniques._build_technique_list`). -/
def catalogTechniques : List TechniqueDef := [
  -- initial access
  { id := "T1566.001", name := "Phishing: Spearphishing Attachment",
    tactic := Tactic.initial_access,
    preconditions := [{ type := PreconditionType.position_external }],
    effects := [{ type := EffectType.gain_foothold, privilege_level := some "user" }],
    base_success_rate := 35/100, stealth_base := 6/10,
    common_data_sources := ["Email Gateway", "Process Creation", "File Creation"] },
  { id := "T1566.002", name := "Phishing: Spearphishing Link",
    tactic := Tactic.initial_access,
    preconditions := [{ type := PreconditionType.position_external }],
    effects := [{ type := EffectType.gain_foothold, privilege_level := some "user" }],
    base_success_rate := 30/100, stealth_base := 7/10,
    common_data_sources := ["Web Proxy", "DNS", "Process Creation"] },
  { id := "T1190", name := "Exploit Public-Facing Application",
    tactic := Tactic.initial_access,
    preconditions := [{ type := PreconditionType.position_external },
                      { type := PreconditionType.vulnerability_exists }],
    effects := [{ type := EffectType.gain_foothold, privilege_level := some "user" }],
    base_success_rate := 70/100, stealth_base := 4/10,
    common_data_sources := ["Network Traffic", "Application Log", "Web Server Log"] },
  { id := "T1133", name := "External Remote Services",
    tactic := Tactic.initial_access,
    preconditions := [{ type := PreconditionType.position_external },
                      { type := PreconditionType.credential_available }],
    effects := [{ type := EffectType.gain_foothold }],
    base_success_rate := 85/100, stealth_base := 8/10,
    common_data_sources := ["Authentication Log", "Network Connection"] },
  { id := "T1078", name := "Valid Accounts",
    tactic := Tactic.initial_access,
    preconditions := [{ type := PreconditionType.credential_available }],
    effects := [{ type := EffectType.gain_foothold }],
    base_success_rate := 90/100, stealth_base := 9/10,
    common_data_sources := ["Authentication Log", "Account Usage Audit"] },
  -- execution
  { id := "T1059.001", name := "Command and Scripting: PowerShell",
    tactic := Tactic.execution,
    preconditions := [{ type := PreconditionType.position_on_host },
                      { type := PreconditionType.os_windows },
                      { type := PreconditionType.privilege_user }],
    effects := [{ type := EffectType.execute_command }],
    base_success_rate := 85/100, stealth_base := 5/10,
    common_data_sources := ["Script Execution", "Process Creation", "Command Line"] },
  { id := "T1059.004", name := "Command and Scripting: Unix Shell",
    tactic := Tactic.execution,
    preconditions := [{ type := PreconditionType.position_on_host },
                      { type := PreconditionType.os_linux },
                      { type := PreconditionType.privilege_user }],
    effects := [{ type := EffectType.execute_command }],
    base_success_rate := 90/100, stealth_base := 6/10,
    common_data_sources := ["Process Creation", "Command Line Audit"] },
  { id := "T1047", name := "Windows Management Instrumentation",
    tactic := Tactic.execution,
    preconditions := [{ type := PreconditionType.position_on_host },
                      { type := PreconditionType.os_windows },
                      { type := PreconditionType.privilege_admin }],
    effects := [{ type := EffectType.execute_command }],
    base_success_rate := 80/100, stealth_base := 65/100,
    common_data_sources := ["WMI Trace", "Process Creation"] },
  -- persistence
  { id := "T1053.005", name := "Scheduled Task/Job: Scheduled Task",
    tactic := Tactic.persistence,
    preconditions := [{ type := PreconditionType.position_on_host },
                      { type := PreconditionType.privilege_user }],
    effects := [{ type := EffectType.establish_persistence }],
    base_success_rate := 80/100, stealth_base := 5/10,
    common_data_sources := ["Scheduled Task Creation", "Process Creation"] },
  { id := "T1543.003", name := "Create or Modify System Process: Windows Service",
    tactic := Tactic.persistence,
    preconditions := [{ type := PreconditionType.position_on_host },
                      { type := PreconditionType.os_windows },
                      { type := PreconditionType.privilege_admin }],
    effects := [{ type := EffectType.establish_persistence }],
    base_success_rate := 75/100, stealth_base := 4/10,
    common_data_sources := ["Service Creation", "Windows Registry"] },
  { id := "T1136.001", name := "Create Account: Local Account",
    tactic := Tactic.persistence,
    preconditions := [{ type := PreconditionType.position_on_host },
                      { type := PreconditionType.privilege_admin }],
    effects := [{ type := EffectType.establish_persistence },
                { type := EffectType.harvest_credentials }],
    base_success_rate := 90/100, stealth_base := 3/10,
    common_data_sources := ["Account Creation", "Security Log"] },
  -- privilege escalation
  { id := "T1068", name := "Exploitation for Privilege Escalation",
    tactic := Tactic.privilege_escalation,
    preconditions := [{ type := PreconditionType.position_on_host },
                      { type := PreconditionType.privilege_user },
                      { type := PreconditionType.vulnerability_exists }],
    effects := [{ type := EffectType.elevate_privilege, privilege_level := some "admin" }],
    base_success_rate := 60/100, stealth_base := 4/10,
    common_data_sources := ["Process Creation", "Exploit Guard"] },
  { id := "T1548.002", name := "Abuse Elevation Control: Bypass UAC",
    tactic := Tactic.privilege_escalation,
    preconditions := [{ type := PreconditionType.position_on_host },
                      { type := PreconditionType.os_windows },
                      { type := PreconditionType.privilege_user }],
    effects := [{ type := EffectType.elevate_privilege, privilege_level := some "admin" }],
    base_success_rate := 65/100, stealth_base := 55/100,
    common_data_sources := ["Process Creation", "Windows Registry"] },
  { id := "T1134", name := "Access Token Manipulation",
    tactic := Tactic.privilege_escalation,
    preconditions := [{ type := PreconditionType.position_on_host },
                      { type := PreconditionType.privilege_admin }],
    effects := [{ type := EffectType.elevate_privilege, privilege_level := some "system" }],
    base_success_rate := 75/100, stealth_base := 6/10,
    common_data_sources := ["API Monitoring", "Access Token"] },
  -- defense evasion
  { id := "T1070.001", name := "Indicator Removal: Clear Windows Event Logs",
    tactic := Tactic.defense_evasion,
    preconditions := [{ type := PreconditionType.position_on_host },
                      { type := PreconditionType.os_windows },
                      { type := PreconditionType.privilege_admin }],
    effects := [{ type := EffectType.reduce_detection, value := 3/10 }],
    base_success_rate := 90/100, stealth_base := 2/10,
    common_data_sources := ["Log Deletion Event", "Security Log"] },
  { id := "T1027", name := "Obfuscated Files or Information",
    tactic := Tactic.defense_evasion,
    preconditions := [{ type := PreconditionType.position_on_host },
                      { type := PreconditionType.privilege_user }],
    effects := [{ type := EffectType.increase_stealth, value := 15/100 }],
    base_success_rate := 85/100, stealth_base := 7/10,
    common_data_sources := ["File Analysis", "Script Execution"] },
  { id := "T1218.011", name := "System Binary Proxy Execution: Rundll32",
    tactic := Tactic.defense_evasion,
    preconditions := [{ type := PreconditionType.position_on_host },
                      { type := PreconditionType.os_windows },
                      { type := PreconditionType.privilege_user }],
    effects := [{ type := EffectType.execute_command },
                { type := EffectType.increase_stealth, value := 2/10 }],
    base_success_rate := 80/100, stealth_base := 75/100,
    common_data_sources := ["Process Creation", "Module Load"] },
  -- credential access
  { id := "T1003.001", name := "OS Credential Dumping: LSASS Memory",
    tactic := Tactic.credential_access,
    preconditions := [{ type := PreconditionType.position_on_host },
                      { type := PreconditionType.os_windows },
                      { type := PreconditionType.privilege_admin },
                      { type := PreconditionType.has_credential_cache }],
    effects := [{ type := EffectType.harvest_credentials }],
    base_success_rate := 85/100, stealth_base := 3/10,
    common_data_sources := ["Process Access (LSASS)", "Sensor Health"] },
  { id := "T1003.003", name := "OS Credential Dumping: NTDS",
    tactic := Tactic.credential_access,
    preconditions := [{ type := PreconditionType.position_on_host },
                      { type := PreconditionType.host_is_dc },
                      { type := PreconditionType.privilege_admin }],
    effects := [{ type := EffectType.harvest_credentials }],
    base_success_rate := 80/100, stealth_base := 2/10,
    common_data_sources := ["File Access", "Volume Shadow Copy", "Command Line"] },
  { id := "T1558.003", name := "Steal or Forge Kerberos Tickets: Kerberoasting",
    tactic := Tactic.credential_access,
    preconditions := [{ type := PreconditionType.position_internal },
                      { type := PreconditionType.privilege_user }],
    effects := [{ type := EffectType.harvest_credentials }],
    base_success_rate := 75/100, stealth_base := 65/100,
    common_data_sources := ["Kerberos Traffic", "Authentication Log"] },
  { id := "T1110.003", name := "Brute Force: Password Spraying",
    tactic := Tactic.credential_access,
    preconditions := [],
    effects := [{ type := EffectType.harvest_credentials }],
    base_success_rate := 20/100, stealth_base := 4/10,
    common_data_sources := ["Authentication Log", "Account Lockout"] },
  -- discovery
  { id := "T1018", name := "Remote System Discovery",
    tactic := Tactic.discovery,
    preconditions := [{ type := PreconditionType.position_internal },
                      { type := PreconditionType.privilege_user }],
    effects := [{ type := EffectType.discover_hosts }],
    base_success_rate := 95/100, stealth_base := 7/10,
    common_data_sources := ["Network Traffic", "Process Creation"] },
  { id := "T1083", name := "File and Directory Discovery",
    tactic := Tactic.discovery,
    preconditions := [{ type := PreconditionType.position_on_host },
                      { type := PreconditionType.privilege_user }],
    effects := [{ type := EffectType.stage_data }],
    base_success_rate := 95/100, stealth_base := 85/100,
    common_data_sources := ["Process Creation", "Command Line"] },
  { id := "T1087.002", name := "Account Discovery: Domain Account",
    tactic := Tactic.discovery,
    preconditions := [{ type := PreconditionType.position_internal },
                      { type := PreconditionType.privilege_user }],
    effects := [{ type := EffectType.discover_hosts }],
    base_success_rate := 90/100, stealth_base := 7/10,
    common_data_sources := ["LDAP Query", "Authentication Log"] },
  -- lateral movement
  { id := "T1021.001", name := "Remote Services: Remote Desktop Protocol",
    tactic := Tactic.lateral_movement,
    preconditions := [{ type := PreconditionType.service_running, service_name := some "rdp" },
                      { type := PreconditionType.credential_available },
                      { type := PreconditionType.host_not_isolated }],
    effects := [{ type := EffectType.move_laterally }],
    base_success_rate := 85/100, stealth_base := 6/10,
    common_data_sources := ["Network Connection", "Authentication Log", "RDP Log"] },
  { id := "T1021.002", name := "Remote Services: SMB/Windows Admin Shares",
    tactic := Tactic.lateral_movement,
    preconditions := [{ type := PreconditionType.service_running, service_name := some "smb" },
                      { type := PreconditionType.credential_available },
                      { type := PreconditionType.host_not_isolated }],
    effects := [{ type := EffectType.move_laterally }],
    base_success_rate := 80/100, stealth_base := 5/10,
    common_data_sources := ["Network Share Access", "SMB Traffic", "Authentication Log"] },
  { id := "T1021.004", name := "Remote Services: SSH",
    tactic := Tactic.lateral_movement,
    preconditions := [{ type := PreconditionType.service_running, service_name := some "ssh" },
                      { type := PreconditionType.credential_available },
                      { type := PreconditionType.host_not_isolated }],
    effects := [{ type := EffectType.move_laterally }],
    base_success_rate := 85/100, stealth_base := 65/100,
    common_data_sources := ["SSH Log", "Authentication Log", "Network Connection"] },
  { id := "T1570", name := "Lateral Tool Transfer",
    tactic := Tactic.lateral_movement,
    preconditions := [{ type := PreconditionType.position_on_host },
                      { type := PreconditionType.privilege_user },
                      { type := PreconditionType.host_not_isolated }],
    effects := [{ type := EffectType.execute_command }],
    base_success_rate := 75/100, stealth_base := 5/10,
    common_data_sources := ["Network Traffic", "File Creation"] },
  { id := "T1210", name := "Exploitation of Remote Services",
    tactic := Tactic.lateral_movement,
    preconditions := [{ type := PreconditionType.vulnerability_exists },
                      { type := PreconditionType.host_not_isolated }],
    effects := [{ type := EffectType.move_laterally }],
    base_success_rate := 55/100, stealth_base := 35/100,
    common_data_sources := ["Network Traffic", "IDS/IPS", "Application Log"] },
  -- collection
  { id := "T1005", name := "Data from Local System",
    tactic := Tactic.collection,
    preconditions := [{ type := PreconditionType.position_on_host },
                      { type := PreconditionType.privilege_user }],
    effects := [{ type := EffectType.stage_data }],
    base_success_rate := 90/100, stealth_base := 75/100,
    common_data_sources := ["File Access", "Process Creation"] },
  { id := "T1039", name := "Data from Network Shared Drive",
    tactic := Tactic.collection,
    preconditions := [{ type := PreconditionType.position_internal },
                      { type := PreconditionType.privilege_user },
                      { type := PreconditionType.service_running, service_name := some "smb" }],
    effects := [{ type := EffectType.stage_data }],
    base_success_rate := 85/100, stealth_base := 7/10,
    common_data_sources := ["Network Share Access", "File Access"] },
  -- exfiltration
  { id := "T1048", name := "Exfiltration Over Alternative Protocol",
    tactic := Tactic.exfiltration,
    preconditions := [{ type := PreconditionType.position_on_host },
                      { type := PreconditionType.data_staged },
                      { type := PreconditionType.privilege_user }],
    effects := [{ type := EffectType.exfiltrate_data }],
    base_success_rate := 75/100, stealth_base := 5/10,
    common_data_sources := ["Network Traffic", "DNS", "Firewall Log"] },
  { id := "T1041", name := "Exfiltration Over C2 Channel",
    tactic := Tactic.exfiltration,
    preconditions := [{ type := PreconditionType.position_on_host },
                      { type := PreconditionType.data_staged },
                      { type := PreconditionType.privilege_user }],
    effects := [{ type := EffectType.exfiltrate_data }],
    base_success_rate := 80/100, stealth_base := 6/10,
    common_data_sources := ["Network Traffic", "Proxy Log"] },
  { id := "T1567.002", name := "Exfiltration Over Web Service: Cloud Storage",
    tactic := Tactic.exfiltration,
    preconditions := [{ type := PreconditionType.position_on_host },
                      { type := PreconditionType.data_staged },
                      { type := PreconditionType.privilege_user }],
    effects := [{ type := EffectType.exfiltrate_data }],
    base_success_rate := 85/100, stealth_base := 7/10,
    common_data_sources := ["Cloud API Log", "Network Traffic", "Web Proxy"] },
  -- impact
  { id := "T1486", name := "Data Encrypted for Impact",
    tactic := Tactic.impact,
    preconditions := [{ type := PreconditionType.position_on_host },
                      { type := PreconditionType.privilege_admin }],
    effects := [{ type := EffectType.encrypt_host }],
    base_success_rate := 90/100, stealth_base := 1/10,
    common_data_sources := ["File Modification", "Service Stop"] },
  { id := "T1489", name := "Service Stop",
    tactic := Tactic.impact,
    preconditions := [{ type := PreconditionType.position_on_host },
                      { type := PreconditionType.privilege_admin }],
    effects := [{ type := EffectType.stop_services }],
    base_success_rate := 95/100, stealth_base := 2/10,
    common_data_sources := ["Service Activity", "Process Termination"] }
]

/-- Privilege levels (`aces.network.assets.PrivLevel`), ordered
none < user < admin < system. -/
inductive PrivLevel where
  | none
  | user
  | admin
  | system
deriving DecidableEq, Repr

/-- Numeric rank of a privilege level, as in the source's order dict. -/
def PrivLevel.rank : PrivLevel → Nat
  | PrivLevel.none => 0
  | PrivLevel.user => 1
  | PrivLevel.admin => 2
  | PrivLevel.system => 3

/-- Operating-system kinds (`aces.network.assets.OSType`). -/
inductive OSType where
  | windows_10
  | windows_server_2019
  | ubuntu_22
  | rhel_8
deriving DecidableEq, Repr

/-- Host roles (`aces.network.assets.HostRole`). -/
inductive HostRole where
  | workstation
  | server
  | domain_controller
  | firewall
  | database
deriving DecidableEq, Repr

/-- A network service running on a host. -/
structure Service where
  name : String
  port : Nat
  version : String := ""
  exposed : Bool := false
deriving DecidableEq, Repr

/-- A vulnerability present on a host. -/
structure Vulnerability where
  cve_id : String
  cvss_score : ℚ
  technique_enables : String
  exploited : Bool := false
deriving DecidableEq, Repr

/-- An authentication credential. -/
structure Credential where
  id : String
  username : String
  privilege : PrivLevel
  valid_on : List String
  compromised : Bool := false
deriving DecidableEq, Repr

/-- A network host (`aces.network.assets.Host`). -/
structure Host where
  id : String
  hostname : String
  os : OSType
  role : HostRole
  criticality : ℚ
  services : List Service := []
  vulnerabilities : List Vulnerability := []
  installed_software : List String := []
  is_compromised : Bool := false
  privilege_level : PrivLevel := PrivLevel.none
  has_credential_cache : Bool := false
  segment : String := ""
  high_value_data : Bool := false
  data_staged : Bool := false
deriving DecidableEq, Repr

/-- `Host.has_service`. -/
def Host.hasService (h : Host) (service_name : String) : Bool :=
  h.services.any (fun s => decide (s.name = service_name))

/-- `Host.has_vulnerability_for` (truthiness of the returned vulnerability). -/
def Host.hasVulnerabilityFor (h : Host) (technique_id : String) : Bool :=
  h.vulnerabilities.any (fun v => decide (v.technique_enables = technique_id) && !v.exploited)

/-- `Host.is_windows`. -/
def Host.isWindows (h : Host) : Bool :=
  decide (h.os = OSType.windows_10) || decide (h.os = OSType.windows_server_2019)

/-- `Host.is_linux`. -/
def Host.isLinux (h : Host) : Bool :=
  decide (h.os = OSType.ubuntu_22) || decide (h.os = OSType.rhel_8)

/-- Placeholder host, used to totalise lookups that Python would fail with
`KeyError`; never reachable on the verified paths. -/
def dummyHost : Host :=
  { id := "", hostname := "", os := OSType.ubuntu_22, role := HostRole.server,
    criticality := 0 }

/-- A directed reachability edge of the network graph. -/
structure NetEdge where
  src : String
  dst : String
  protocols : List String
  requires_credential : Bool := false
  segment_boundary : Bool := false
deriving DecidableEq, Repr

/-- The network model (`aces.network.graph.NetworkGraph`): hosts and
credentials in insertion order, directed edges, segment membership. -/
structure NetworkGraph where
  hosts : List Host
  edges : List NetEdge
  credentials : List Credential
  segments : List (String × List String)
deriving DecidableEq, Repr

/-- `NetworkGraph.get_host`, totalised lookup. -/
def NetworkGraph.getHost? (g : NetworkGraph) (host_id : String) : Option Host :=
  g.hosts.find? (fun h => decide (h.id = host_id))

/-- `NetworkGraph.get_host` with the placeholder on a missing id. -/
def NetworkGraph.getHostD (g : NetworkGraph) (host_id : String) : Host :=
  (g.getHost? host_id).getD dummyHost

/-- `NetworkGraph.get_reachable` without a protocol filter (the engine never
passes one): targets of all out-edges of a host. -/
def NetworkGraph.getReachable (g : NetworkGraph) (host_id : String) : List String :=
  (g.edges.filter (fun e => decide (e.src = host_id))).map (fun e => e.dst)

/-- Credential lookup; models `self.credentials.get(cred_id)`. -/
def NetworkGraph.getCredential? (g : NetworkGraph) (cred_id : String) : Option Credential :=
  g.credentials.find? (fun c => decide (c.id = cred_id))

/-- `NetworkGraph.compromise_host`: mark compromised and raise (never lower)
the privilege level. -/
def NetworkGraph.compromiseHost (g : NetworkGraph) (host_id : String) (priv_level : PrivLevel) :
    NetworkGraph :=
  { g with hosts := g.hosts.map (fun h =>
      if h.id = host_id then
        { h with
          is_compromised := true
          privilege_level :=
            if h.privilege_level.rank ≤ priv_level.rank then priv_level
            else h.privilege_level }
      else h) }

/-- `NetworkGraph.harvest_credentials`: credentials cached on a host (the
source's duplicated `valid_on` test collapses to a single membership test). -/
def NetworkGraph.harvestCredentials (g : NetworkGraph) (host_id : String) : List Credential :=
  match g.getHost? host_id with
  | Option.none => []
  | Option.some h =>
      if h.has_credential_cache then
        g.credentials.filter (fun c => decide (host_id ∈ c.valid_on))
      else []

/-- Mark a set of credentials compromised in the network's credential table
(the in-place `cred.compromised = True` writes of the harvest effect). -/
def NetworkGraph.markCredentialsCompromised (g : NetworkGraph) (ids : List String) :
    NetworkGraph :=
  { g with credentials := g.credentials.map (fun c =>
      if c.id ∈ ids then { c with compromised := true } else c) }

/-- Set the `data_staged` flag of one host (the `stage_data` effect). -/
def NetworkGraph.setDataStaged (g : NetworkGraph) (host_id : String) : NetworkGraph :=
  { g with hosts := g.hosts.map (fun h =>
      if h.id = host_id then { h with data_staged := true } else h) }

/-- Scoring weights (`aces.config.ScoringWeights`), with the source defaults. -/
structure ScoringWeights where
  host_criticality_multiplier : ℚ := 10
  credential_value : ℚ := 3
  exfiltration_bonus : ℚ := 50
  kill_chain_length_value : ℚ := 2
  detection_penalty : ℚ := 5
  detection_value : ℚ := 10
  prevention_value : ℚ := 10
  no_exfil_bonus : ℚ := 30
  false_positive_penalty : ℚ := 5
  complexity_cost : ℚ := 1
deriving DecidableEq, Repr

/-- Run configuration (`aces.config.Config`), with the source defaults.
As in the source, no field carries a range constraint. -/
structure Config where
  population_size : Nat := 80
  num_generations : Nat := 300
  tournament_size : Nat := 5
  crossover_rate : ℚ := 7/10
  mutation_rate : ℚ := 2/10
  max_attack_chain_length : Nat := 12
  defender_budget : Nat := 15
  network_size : Nat := 25
  hall_of_fame_size : Nat := 10
  matchups_per_eval : Nat := 5
  stagnation_window : Nat := 20
  immigrant_fraction : ℚ := 1/10
  hof_opponent_fraction : ℚ := 2/10
  scoring : ScoringWeights := {}
  output_dir : String := "results"
  seed : Nat := 42
deriving DecidableEq, Repr

/-- Target-selection strategies (`aces.attack.genome.TargetSelector`). -/
inductive TargetSelector where
  | highest_criticality
  | least_defended
  | most_connected
  | random_reachable
  | specific_role
deriving DecidableEq, Repr

/-- `list(TargetSelector)` in declaration order. -/
def targetSelectorList : List TargetSelector :=
  [TargetSelector.highest_criticality, TargetSelector.least_defended,
   TargetSelector.most_connected, TargetSelector.random_reachable,
   TargetSelector.specific_role]

/-- `list(HostRole)` in declaration order. -/
def hostRoleList : List HostRole :=
  [HostRole.workstation, HostRole.server, HostRole.domain_controller,
   HostRole.firewall, HostRole.database]

/-- `list(Tactic)` in declaration order. -/
def tacticList : List Tactic :=
  [Tactic.initial_access, Tactic.execution, Tactic.persistence,
   Tactic.privilege_escalation, Tactic.defense_evasion, Tactic.credential_access,
   Tactic.discovery, Tactic.lateral_movement, Tactic.collection,
   Tactic.exfiltration, Tactic.impact]

/-- A single step of an attack chain (`aces.attack.genome.AttackGene`). -/
structure AttackGene where
  technique_id : String
  target_selector : TargetSelector := TargetSelector.random_reachable
  target_role : Option HostRole := none
  fallback_technique : Option String := none
  stealth_modifier : ℚ := 0
deriving DecidableEq, Repr

/-- Placeholder gene used to totalise indexing; never reachable on the
verified paths. -/
def dummyGene : AttackGene := { technique_id := "" }

/-- An ordered kill chain (`aces.attack.genome.AttackGenome`). -/
structure AttackGenome where
  genes : List AttackGene
  max_length : Nat := 12
deriving DecidableEq, Repr

/-- The nine post-initial-access tactics sampled by `create_random_attacker`. -/
def postIaTactics : List Tactic :=
  [Tactic.execution, Tactic.persistence, Tactic.privilege_escalation,
   Tactic.defense_evasion, Tactic.credential_access, Tactic.discovery,
   Tactic.lateral_movement, Tactic.collection, Tactic.exfiltration]

/-- The shared draws of one random `AttackGene`: target selector, optional
role (present with probability 0.3), and a stealth modifier drawn uniformly
from [0, 0.5] and rounded to two decimals. -/
def randGeneFields (r : Rng) : TargetSelector × Option HostRole × ℚ × Rng :=
  let (sel, r1) := Rng.choice targetSelectorList TargetSelector.random_reachable r
  let (u, r2) := r1.nextUnit
  let (role, r3) :=
    if u < 3/10 then
      let (ro, r') := Rng.choice hostRoleList HostRole.workstation r2
      (Option.some ro, r')
    else (Option.none, r2)
  let (sv, r4) := Rng.uniform 0 (1/2) r3
  (sel, role, pyRound2 sv, r4)

/-- The chain-extension loop of `create_random_attacker`: append `n` genes,
each drawn from a uniformly chosen post-initial-access tactic (skipping a
tactic with no catalog entries). -/
def buildChainGenes (reg : List TechniqueDef) :
    Nat → List AttackGene → Rng → List AttackGene × Rng
  | 0, genes, r => (genes, r)
  | n + 1, genes, r =>
      let (tac, r1) := Rng.choice postIaTactics Tactic.execution r
      let candidates := getByTactic reg tac
      if candidates.isEmpty then buildChainGenes reg n genes r1
      else
        let (tech, r2) := Rng.choice candidates dummyTechnique r1
        let (sel, role, sv, r3) := randGeneFields r2
        buildChainGenes reg n
          (genes ++ [{ technique_id := tech.id, target_selector := sel,
                       target_role := role, stealth_modifier := sv }]) r3

/-- `aces.attack.operators.create_random_attacker`. -/
def createRandomAttacker (reg : List TechniqueDef) (cfg : Config) (r : Rng) :
    AttackGenome × Rng :=
  let ia_techniques := getInitialAccess reg
  let (ia, r1) := Rng.choice ia_techniques dummyTechnique r
  let (sel, role, sv, r2) := randGeneFields r1
  let g0 : AttackGene :=
    { technique_id := ia.id, target_selector := sel, target_role := role,
      stealth_modifier := sv }
  let (chain_length, r3) := Rng.randint 2 (min 8 (cfg.max_attack_chain_length - 1)) r2
  let (genes, r4) := buildChainGenes reg chain_length [g0] r3
  ({ genes := genes, max_length := cfg.max_attack_chain_length }, r4)

/-- `aces.attack.operators._repair_initial_access`.  The source replaces
gene 0 by the template's gene 0 when its technique is not initial access
(and would raise `KeyError` on a technique id missing from the registry,
a state unreachable under the genome invariants; the model replaces there
as well). -/
def repairInitialAccess (reg : List TechniqueDef) (genome template : AttackGenome) :
    AttackGenome :=
  match genome.genes with
  | [] => { genome with genes := template.genes.take 1 }
  | g0 :: rest =>
      match regFind? reg g0.technique_id with
      | Option.some td =>
          if td.tactic = Tactic.initial_access then genome
          else { genome with genes := template.genes.take 1 ++ rest }
      | Option.none => { genome with genes := template.genes.take 1 ++ rest }

/-- `aces.attack.operators.crossover_attack`: single-point crossover with
tail swap, truncation to each child's own maximum length, a minimum-size
restore from the originating parent, and initial-access repair against the
module-level registry (the catalog). -/
def crossoverAttack (ind1 ind2 : AttackGenome) (r : Rng) :
    AttackGenome × AttackGenome × Rng :=
  let (pt1, r1) := Rng.randint 1 (max 1 (ind1.genes.length - 1)) r
  let (pt2, r2) := Rng.randint 1 (max 1 (ind2.genes.length - 1)) r1
  let new_genes1 := ind1.genes.take pt1 ++ ind2.genes.drop pt2
  let new_genes2 := ind2.genes.take pt2 ++ ind1.genes.drop pt1
  let new_genes1 := new_genes1.take ind1.max_length
  let new_genes2 := new_genes2.take ind2.max_length
  let new_genes1 :=
    if new_genes1.length < 2 then
      if 2 ≤ ind1.genes.length then ind1.genes.take 2 else ind1.genes
    else new_genes1
  let new_genes2 :=
    if new_genes2.length < 2 then
      if 2 ≤ ind2.genes.length then ind2.genes.take 2 else ind2.genes
    else new_genes2
  let child1 := repairInitialAccess catalogTechniques
    { genes := new_genes1, max_length := ind1.max_length } ind1
  let child2 := repairInitialAccess catalogTechniques
    { genes := new_genes2, max_length := ind2.max_length } ind2
  (child1, child2, r2)

/-- The six attacker mutation kinds, in source order. -/
def attackMutationTypes : List String :=
  ["add_gene", "remove_gene", "swap_genes",
   "modify_technique", "modify_targeting", "modify_stealth"]

/-- `aces.attack.operators.mutate_attack`: one uniformly chosen mutation,
guarded exactly as in the source (a guard failure leaves the genome
unchanged). -/
def mutateAttack (individual : AttackGenome) (reg : List TechniqueDef)
    (_cfg : Config) (r : Rng) : AttackGenome × Rng :=
  let (mutation_type, r0) := Rng.choice attackMutationTypes "add_gene" r
  let genes := individual.genes
  if mutation_type = "add_gene" ∧ genes.length < individual.max_length then
    let (tac, r1) := Rng.choice tacticList Tactic.initial_access r0
    let candidates := getByTactic reg tac
    if candidates.isEmpty then (individual, r1)
    else
      let (tech, r2) := Rng.choice candidates dummyTechnique r1
      let (sel, role, sv, r3) := randGeneFields r2
      let new_gene : AttackGene :=
        { technique_id := tech.id, target_selector := sel, target_role := role,
          stealth_modifier := sv }
      let (pos, r4) := Rng.randint 1 genes.length r3
      ({ individual with genes := genes.insertIdx pos new_gene }, r4)
  else if mutation_type = "remove_gene" ∧ 2 < genes.length then
    let (idx, r1) := Rng.randint 1 (genes.length - 1) r0
    ({ individual with genes := genes.eraseIdx idx }, r1)
  else if mutation_type = "swap_genes" ∧ 2 < genes.length then
    let (i, r1) := Rng.randint 1 (genes.length - 1) r0
    let (j, r2) := Rng.randint 1 (genes.length - 1) r1
    let gi := genes.getD i dummyGene
    let gj := genes.getD j dummyGene
    ({ individual with genes := (genes.set i gj).set j gi }, r2)
  else if mutation_type = "modify_technique" then
    let (idx, r1) :=
      if 1 < genes.length then Rng.randint 1 (genes.length - 1) r0 else (0, r0)
    let g := genes.getD idx dummyGene
    if idx = 0 then
      let (tech, r2) := Rng.choice (getInitialAccess reg) dummyTechnique r1
      let g2 : AttackGene := { g with technique_id := tech.id }
      ({ individual with genes := genes.set idx g2 }, r2)
    else
      let old_tech := regGetD reg g.technique_id
      let candidates := getByTactic reg old_tech.tactic
      let (tech, r2) := Rng.choice candidates dummyTechnique r1
      let g2 : AttackGene := { g with technique_id := tech.id }
      ({ individual with genes := genes.set idx g2 }, r2)
  else if mutation_type = "modify_targeting" then
    let (idx, r1) := Rng.randint 0 (genes.length - 1) r0
    let (sel, r2) := Rng.choice targetSelectorList TargetSelector.random_reachable r1
    let g := genes.getD idx dummyGene
    if sel = TargetSelector.specific_role then
      let (role, r3) := Rng.choice hostRoleList HostRole.workstation r2
      let g2 : AttackGene :=
        { g with target_selector := sel, target_role := Option.some role }
      ({ individual with genes := genes.set idx g2 }, r3)
    else
      let g2 : AttackGene := { g with target_selector := sel }
      ({ individual with genes := genes.set idx g2 }, r2)
  else if mutation_type = "modify_stealth" then
    let (idx, r1) := Rng.randint 0 (genes.length - 1) r0
    let (delta, r2) := Rng.uniform (-(1/10)) (1/10) r1
    let g := genes.getD idx dummyGene
    let new_val := max 0 (min 1 (g.stealth_modifier + delta))
    let g2 : AttackGene := { g with stealth_modifier := pyRound2 new_val }
    ({ individual with genes := genes.set idx g2 }, r2)
  else (individual, r0)

/-- Detection-logic kinds (`aces.defense.detection.DetectionLogic`). -/
inductive DetectionLogic where
  | signature
  | behavioral
  | correlation
  | ml_anomaly
deriving DecidableEq, Repr

/-- Response actions (`aces.defense.detection.ResponseAction`). -/
inductive ResponseAction where
  | alert_only
  | isolate_host
  | kill_process
  | revoke_credential
  | block_traffic
deriving DecidableEq, Repr

/-- The `.value` string of a response action. -/
def responseActionString : ResponseAction → String
  | ResponseAction.alert_only => "alert_only"
  | ResponseAction.isolate_host => "isolate_host"
  | ResponseAction.kill_process => "kill_process"
  | ResponseAction.revoke_credential => "revoke_credential"
  | ResponseAction.block_traffic => "block_traffic"

/-- A detection rule (`aces.defense.genome.DetectionGene`). -/
structure DetectionGene where
  technique_detected : String
  data_source : String
  detection_logic : DetectionLogic := DetectionLogic.signature
  confidence : ℚ := 1/2
  false_positive_rate : ℚ := 1/10
  response_action : ResponseAction := ResponseAction.alert_only
  deploy_cost : ℚ := 1
deriving DecidableEq, Repr

/-- A defender rule set (`aces.defense.genome.DefenseGenome`). -/
structure DefenseGenome where
  genes : List DetectionGene
  budget : Nat := 15
deriving DecidableEq, Repr

/-- `DefenseGenome.get_detection_genes`. -/
def DefenseGenome.getDetectionGenes (d : DefenseGenome) (technique_id : String) :
    List DetectionGene :=
  d.genes.filter (fun g => decide (g.technique_detected = technique_id))

/-- `DefenseGenome.get_detection_probability`: the matching gene with the
highest effective probability, found by a strict-improvement scan. -/
def DefenseGenome.getDetectionProbability (d : DefenseGenome) (technique_id : String)
    (stealth_modifier : ℚ) : ℚ × Option DetectionGene :=
  let matching := d.getDetectionGenes technique_id
  if matching.isEmpty then (0, Option.none)
  else
    matching.foldl (fun best gene =>
      let prob := gene.confidence * (1 - stealth_modifier)
      if prob > best.1 then (prob, Option.some gene) else best)
      (0, Option.none)

/-- `DefenseGenome.total_false_positive_load`. -/
def DefenseGenome.totalFalsePositiveLoad (d : DefenseGenome) : ℚ :=
  (d.genes.map (fun g => g.false_positive_rate)).sum

/-- Step outcomes (`aces.simulation.state.EventOutcome`). -/
inductive EventOutcome where
  | success
  | detected
  | precondition_failure
deriving DecidableEq, Repr

/-- Record of a single simulation step (`aces.simulation.state.SimEvent`).
The heterogeneous Python `effects` dict is modelled as a list of
string-valued entries. -/
structure SimEvent where
  step : Nat
  technique_id : String
  target_host : String
  outcome : EventOutcome
  detection_rule : Option String := Option.none
  response_action : Option String := Option.none
  effects : List (String × String) := []
deriving DecidableEq, Repr

/-- Result of a single matchup (`aces.simulation.state.MatchResult`).
The Python `attacker_id`/`defender_id` fields hold `str(id(...))` object
identities, which have no pure counterpart and are left empty. -/
structure MatchResult where
  attacker_id : String := ""
  defender_id : String := ""
  attacker_score : ℚ := 0
  defender_score : ℚ := 0
  events : List SimEvent := []
  hosts_compromised : Nat := 0
  max_criticality_reached : ℚ := 0
  credentials_obtained : Nat := 0
  data_exfiltrated : Bool := false
  techniques_detected : Nat := 0
  techniques_successful : Nat := 0
  techniques_attempted : Nat := 0
  kill_chain_length : Nat := 0
deriving DecidableEq, Repr

/-- Mutable per-matchup state (`aces.simulation.state.SimulationState`).
The constructor clones the base network; on the pure model the value is
simply stored. -/
structure SimulationState where
  network : NetworkGraph
  attacker_position : Option String := Option.none
  compromised_hosts : List String := []
  obtained_credentials : List String := []
  persistence_hosts : List String := []
  data_exfiltrated : Bool := false
  isolated_hosts : List String := []
  revoked_credentials : List String := []
  events : List SimEvent := []
  stealth_bonus : ℚ := 0
  detection_reduction : List (String × ℚ) := []
deriving DecidableEq, Repr

/-- `SimulationState.get_attacker_privilege`. -/
def SimulationState.getAttackerPrivilege (s : SimulationState) (host_id : String) :
    PrivLevel :=
  if host_id ∈ s.compromised_hosts then (s.network.getHostD host_id).privilege_level
  else PrivLevel.none

/-- `SimulationState.get_reachable_hosts`: union of the out-neighbours of the
current position (or of "external") and of every compromised, non-isolated
host, minus the isolated hosts.  The Python function returns the set in hash
order; the model returns it deduplicated in first-appearance order — no
verified property depends on the order. -/
def SimulationState.getReachableHosts (s : SimulationState) : List String :=
  let base :=
    match s.attacker_position with
    | Option.none => s.network.getReachable "external"
    | Option.some p => s.network.getReachable p
  let fromCompromised :=
    (s.compromised_hosts.filter (fun c => decide (c ∉ s.isolated_hosts))).flatMap
      (fun c => s.network.getReachable c)
  ((base ++ fromCompromised).dedup).filter (fun h => decide (h ∉ s.isolated_hosts))

/-- `SimulationState.record_event`. -/
def SimulationState.recordEvent (s : SimulationState) (e : SimEvent) : SimulationState :=
  { s with events := s.events ++ [e] }

/-- `SimulationEngine._resolve_target`. -/
def resolveTarget (gene : AttackGene) (s : SimulationState) (tech : TechniqueDef)
    (r : Rng) : Option String × Rng :=
  let needs_external :=
    tech.preconditions.any (fun p => decide (p.type = PreconditionType.position_external))
  if needs_external ∧ s.attacker_position ≠ Option.none then (Option.none, r)
  else
    let reachable := s.getReachableHosts
    if reachable.isEmpty then (Option.none, r)
    else
      let is_foothold := tech.effects.any (fun e =>
        decide (e.type = EffectType.gain_foothold) || decide (e.type = EffectType.move_laterally))
      let candidates :=
        if is_foothold then
          reachable.filter (fun h =>
            decide (h ∉ s.compromised_hosts) && decide (h ≠ "external"))
        else
          let has_on_host := tech.preconditions.any (fun p =>
            decide (p.type = PreconditionType.position_on_host))
          if has_on_host ∧ s.compromised_hosts ≠ [] then
            s.compromised_hosts.filter (fun h => decide (h ∉ s.isolated_hosts))
          else reachable.filter (fun h => decide (h ≠ "external"))
      if candidates.isEmpty then (Option.none, r)
      else
        match gene.target_selector, gene.target_role with
        | TargetSelector.highest_criticality, _ =>
            (pickFirstMaxBy (fun h => (s.network.getHostD h).criticality) candidates, r)
        | TargetSelector.most_connected, _ =>
            (pickFirstMaxBy (fun h => ((s.network.getReachable h).length : ℚ)) candidates, r)
        | TargetSelector.specific_role, Option.some role =>
            let role_matches := candidates.filter (fun h =>
              decide ((s.network.getHostD h).role = role))
            (match role_matches.head? with
             | Option.some h => (Option.some h, r)
             | Option.none =>
                 let (c, r') := Rng.choice candidates "" r
                 (Option.some c, r'))
        | _, _ =>
            let (c, r') := Rng.choice candidates "" r
            (Option.some c, r')

/-- `SimulationEngine._check_preconditions`. -/
def checkPreconditions (tech : TechniqueDef) (target_id : String)
    (s : SimulationState) : Bool :=
  let host := s.network.getHostD target_id
  tech.preconditions.all (fun precond =>
    match precond.type with
    | PreconditionType.position_external => decide (s.attacker_position = Option.none)
    | PreconditionType.position_internal =>
        !(decide (s.attacker_position = Option.none) && s.compromised_hosts.isEmpty)
    | PreconditionType.position_on_host => decide (target_id ∈ s.compromised_hosts)
    | PreconditionType.privilege_user =>
        if (s.getAttackerPrivilege target_id).rank < PrivLevel.user.rank then
          decide (target_id ∈ s.compromised_hosts)
        else true
    | PreconditionType.privilege_admin =>
        decide (PrivLevel.admin.rank ≤ (s.getAttackerPrivilege target_id).rank)
    | PreconditionType.service_running =>
        (match precond.service_name with
         | Option.some sn => if sn = "" then true else host.hasService sn
         | Option.none => true)
    | PreconditionType.vulnerability_exists => host.hasVulnerabilityFor tech.id
    | PreconditionType.credential_available =>
        s.obtained_credentials.any (fun cid =>
          decide (cid ∉ s.revoked_credentials) &&
          (match s.network.getCredential? cid with
           | Option.some c => decide (target_id ∈ c.valid_on)
           | Option.none => false))
    | PreconditionType.host_not_isolated => decide (target_id ∉ s.isolated_hosts)
    | PreconditionType.os_windows => host.isWindows
    | PreconditionType.os_linux => host.isLinux
    | PreconditionType.host_is_dc => decide (host.role = HostRole.domain_controller)
    | PreconditionType.has_credential_cache => host.has_credential_cache
    | PreconditionType.data_staged => host.data_staged
    | PreconditionType.has_internet_access => true)

/-- `SimulationEngine._check_detection`. -/
def checkDetection (technique_id : String) (stealth_modifier : ℚ)
    (defender : DefenseGenome) (host_reduction : ℚ) (r : Rng) :
    (Bool × Option DetectionGene) × Rng :=
  let (prob0, matching_rule) :=
    defender.getDetectionProbability technique_id stealth_modifier
  let prob := max 0 (prob0 - host_reduction)
  if prob ≤ 0 ∨ matching_rule = Option.none then ((false, Option.none), r)
  else
    let (u, r') := r.nextUnit
    let det := u < prob
    ((det, if det then matching_rule else Option.none), r')

/-- `SimulationEngine._apply_response`. -/
def applyResponse (response : ResponseAction) (target_host : String)
    (s : SimulationState) : SimulationState :=
  match response with
  | ResponseAction.isolate_host =>
      { s with isolated_hosts := setAdd s.isolated_hosts target_host }
  | ResponseAction.revoke_credential =>
      { s with revoked_credentials :=
          s.obtained_credentials.foldl (fun rev cid =>
            match s.network.getCredential? cid with
            | Option.some c =>
                if target_host ∈ c.valid_on then setAdd rev cid else rev
            | Option.none => rev) s.revoked_credentials }
  | _ => s

/-- The base privilege of a `gain_foothold` effect. -/
def footholdBasePriv (lvl : Option String) : PrivLevel :=
  match lvl with
  | Option.some "admin" => PrivLevel.admin
  | Option.some "system" => PrivLevel.system
  | _ => PrivLevel.user

/-- The `.value` string of a privilege level. -/
def privLevelString : PrivLevel → String
  | PrivLevel.none => "none"
  | PrivLevel.user => "user"
  | PrivLevel.admin => "admin"
  | PrivLevel.system => "system"

/-- The first obtained credential that exists, is valid on the target and is
not revoked (the source's linear scan with an unconditional `break` on the
first match). -/
def firstUsableCredential (s : SimulationState) (target_id : String) :
    Option Credential :=
  match s.obtained_credentials.find? (fun cid =>
    match s.network.getCredential? cid with
    | Option.some c =>
        decide (target_id ∈ c.valid_on) && decide (cid ∉ s.revoked_credentials)
    | Option.none => false) with
  | Option.some cid => s.network.getCredential? cid
  | Option.none => Option.none

/-- The body of the `_apply_effects` loop: execute one effect on the
simulation state, extending the event's `effects` record. -/
def applyOneEffect (tech : TechniqueDef) (target_id : String)
    (acc : SimulationState × List (String × String)) (effect : Effect) :
    SimulationState × List (String × String) :=
    let cur := acc.1
    let eff := acc.2
    match effect.type with
    | EffectType.gain_foothold =>
        let priv0 := footholdBasePriv effect.privilege_level
        let priv :=
          if tech.preconditions.any (fun p =>
              decide (p.type = PreconditionType.credential_available)) then
            match firstUsableCredential cur target_id with
            | Option.some c =>
                if priv0.rank ≤ c.privilege.rank then c.privilege else priv0
            | Option.none => priv0
          else priv0
        ({ cur with
            network := cur.network.compromiseHost target_id priv
            compromised_hosts := setAdd cur.compromised_hosts target_id
            attacker_position := Option.some target_id },
         eff ++ [("compromised", target_id), ("privilege", privLevelString priv)])
    | EffectType.elevate_privilege =>
        let priv :=
          match effect.privilege_level with
          | Option.some "system" => PrivLevel.system
          | _ => PrivLevel.admin
        ({ cur with network := cur.network.compromiseHost target_id priv },
         eff ++ [("elevated", privLevelString priv)])
    | EffectType.harvest_credentials =>
        let harvested := cur.network.harvestCredentials target_id
        let fresh := harvested.filter (fun c => decide (c.id ∉ cur.revoked_credentials))
        let ob2 := fresh.foldl (fun ob c => setAdd ob c.id) cur.obtained_credentials
        let net2 := cur.network.markCredentialsCompromised (fresh.map (fun c => c.id))
        ({ cur with obtained_credentials := ob2, network := net2 },
         eff ++ [("credentials_harvested", toString harvested.length)])
    | EffectType.establish_persistence =>
        ({ cur with persistence_hosts := setAdd cur.persistence_hosts target_id },
         eff ++ [("persistence", target_id)])
    | EffectType.move_laterally =>
        let priv :=
          match firstUsableCredential cur target_id with
          | Option.some c =>
              if PrivLevel.user.rank ≤ c.privilege.rank then c.privilege
              else PrivLevel.user
          | Option.none => PrivLevel.user
        ({ cur with
            network := cur.network.compromiseHost target_id priv
            compromised_hosts := setAdd cur.compromised_hosts target_id
            attacker_position := Option.some target_id },
         eff ++ [("moved_to", target_id), ("privilege", privLevelString priv)])
    | EffectType.exfiltrate_data =>
        ({ cur with data_exfiltrated := true }, eff ++ [("exfiltrated", "true")])
    | EffectType.execute_command =>
        (cur, eff ++ [("command_executed", "true")])
    | EffectType.discover_hosts =>
        let seg := (cur.network.getHostD target_id).segment
        (match cur.network.segments.find? (fun p => decide (p.1 = seg)) with
         | Option.some p =>
             if seg = "" then (cur, eff)
             else (cur, eff ++ [("discovered_hosts", String.intercalate "," p.2)])
         | Option.none => (cur, eff))
    | EffectType.reduce_detection =>
        let dr := alistSet cur.detection_reduction target_id
          (alistGetD cur.detection_reduction target_id 0 + effect.value)
        ({ cur with detection_reduction := dr },
         eff ++ [("detection_reduced", toString effect.value)])
    | EffectType.increase_stealth =>
        ({ cur with stealth_bonus := cur.stealth_bonus + effect.value },
         eff ++ [("stealth_bonus", toString effect.value)])
    | EffectType.stage_data =>
        ({ cur with network := cur.network.setDataStaged target_id },
         eff ++ [("data_staged", "true")])
    | EffectType.encrypt_host => (cur, eff ++ [("encrypted", "true")])
    | EffectType.stop_services => (cur, eff ++ [("services_stopped", "true")])

/-- `SimulationEngine._apply_effects`: execute each effect of the technique
on the simulation state, accumulating the event's `effects` record. -/
def applyEffects (tech : TechniqueDef) (target_id : String) (_gene : AttackGene)
    (s : SimulationState) : SimulationState × List (String × String) :=
  tech.effects.foldl (applyOneEffect tech target_id) (s, ([] : List (String × String)))

/-- Accumulator of the `simulate` loop: simulation state, random source and
the loop-local counters of `SimulationEngine.simulate`. -/
structure StepAcc where
  state : SimulationState
  rng : Rng
  attempted : Nat := 0
  detected : Nat := 0
  successful : Nat := 0
  consecutive : Nat := 0
  max_consecutive : Nat := 0

/-- Terminal of a failed step: record the failure event, reset the
consecutive-success counter, count the attempt. -/
def simStepFail (acc : StepAcc) (r : Rng) (e : SimEvent) : StepAcc :=
  { acc with
    state := acc.state.recordEvent e
    rng := r
    attempted := acc.attempted + 1
    consecutive := 0 }

/-- Terminal of a detected step: apply the response action, record the
detection event, bump the detected counter, reset consecutive successes.
No technique effect is applied on this path. -/
def simStepDetected (acc : StepAcc) (r : Rng) (stepIdx : Nat) (tech : TechniqueDef)
    (target : String) (mr : DetectionGene) : StepAcc :=
  let s1 := applyResponse mr.response_action target acc.state
  let e : SimEvent :=
    { step := stepIdx, technique_id := tech.id, target_host := target,
      outcome := EventOutcome.detected,
      detection_rule := Option.some mr.technique_detected,
      response_action := Option.some (responseActionString mr.response_action) }
  { acc with
    state := s1.recordEvent e
    rng := r
    attempted := acc.attempted + 1
    detected := acc.detected + 1
    consecutive := 0 }

/-- Terminal of a successful step: apply the technique effects, record the
success event, bump the success and consecutive counters.  No detection is
recorded on this path. -/
def simStepSuccess (acc : StepAcc) (r : Rng) (stepIdx : Nat) (tech : TechniqueDef)
    (target : String) (gene : AttackGene) : StepAcc :=
  let se := applyEffects tech target gene acc.state
  let e : SimEvent :=
    { step := stepIdx, technique_id := tech.id, target_host := target,
      outcome := EventOutcome.success, effects := se.2 }
  { acc with
    state := se.1.recordEvent e
    rng := r
    attempted := acc.attempted + 1
    successful := acc.successful + 1
    consecutive := acc.consecutive + 1
    max_consecutive := max acc.max_consecutive (acc.consecutive + 1) }

/-- One iteration of the gene loop of `SimulationEngine.simulate`: resolve a
target (with fallback), check preconditions (with fallback), roll success,
roll detection, then apply either the response action (detected) or the
technique effects (success). -/
def simStep (reg : List TechniqueDef) (defender : DefenseGenome) (stepIdx : Nat)
    (gene : AttackGene) (acc : StepAcc) : StepAcc :=
  let s := acc.state
  let tech0 := regGetD reg gene.technique_id
  let (target0, r1) := resolveTarget gene s tech0 acc.rng
  let resolved :=
    match target0 with
    | Option.some t => (Option.some t, tech0, r1)
    | Option.none =>
        match gene.fallback_technique with
        | Option.some fid =>
            if fid ≠ "" ∧ regContains reg fid then
              let fallback_tech := regGetD reg fid
              let (t2, r') := resolveTarget gene s fallback_tech r1
              match t2 with
              | Option.some t => (Option.some t, fallback_tech, r')
              | Option.none => (Option.none, tech0, r')
            else (Option.none, tech0, r1)
        | Option.none => (Option.none, tech0, r1)
  match resolved with
  | (Option.none, _, r2) =>
      simStepFail acc r2
        { step := stepIdx, technique_id := gene.technique_id, target_host := "none",
          outcome := EventOutcome.precondition_failure }
  | (Option.some target, tech1, r2) =>
      let afterPre :=
        if checkPreconditions tech1 target s then Option.some tech1
        else
          match gene.fallback_technique with
          | Option.some fid =>
              if fid ≠ "" ∧ regContains reg fid then
                let fallback_tech := regGetD reg fid
                if checkPreconditions fallback_tech target s then
                  Option.some fallback_tech
                else Option.none
              else Option.none
          | Option.none => Option.none
      match afterPre with
      | Option.none =>
          simStepFail acc r2
            { step := stepIdx, technique_id := gene.technique_id,
              target_host := target, outcome := EventOutcome.precondition_failure }
      | Option.some tech =>
          let (u, r3) := r2.nextUnit
          if u > tech.base_success_rate then
            simStepFail acc r3
              { step := stepIdx, technique_id := tech.id, target_host := target,
                outcome := EventOutcome.precondition_failure,
                effects := [("reason", "technique_failed")] }
          else
            let effective_stealth := min 1 (gene.stealth_modifier + s.stealth_bonus)
            let host_reduction := alistGetD s.detection_reduction target 0
            let dres := checkDetection tech.id effective_stealth defender host_reduction r3
            match dres with
            | ((det, rule), r4) =>
                match rule, det with
                | Option.some mr, true => simStepDetected acc r4 stepIdx tech target mr
                | _, _ => simStepSuccess acc r4 stepIdx tech target gene

/-- The `for step, gene in enumerate(attacker.genes)` loop. -/
def runSteps (reg : List TechniqueDef) (defender : DefenseGenome) :
    Nat → List AttackGene → StepAcc → StepAcc
  | _, [], acc => acc
  | i, g :: gs, acc => runSteps reg defender (i + 1) gs (simStep reg defender i g acc)

/-- `SimulationEngine.simulate`: run every gene of the attacker in order and
assemble the `MatchResult`. -/
def simulate (reg : List TechniqueDef) (attacker : AttackGenome)
    (defender : DefenseGenome) (network : NetworkGraph) (r : Rng) : MatchResult :=
  let acc0 : StepAcc := { state := { network := network }, rng := r }
  let fin := runSteps reg defender 0 attacker.genes acc0
  let s := fin.state
  { events := s.events
    hosts_compromised := s.compromised_hosts.length
    credentials_obtained := s.obtained_credentials.length
    data_exfiltrated := s.data_exfiltrated
    kill_chain_length := fin.max_consecutive
    techniques_attempted := fin.attempted
    techniques_detected := fin.detected
    techniques_successful := fin.successful
    max_criticality_reached :=
      if s.compromised_hosts.isEmpty then 0
      else qListMax (s.compromised_hosts.map (fun h => (s.network.getHostD h).criticality)) }

/-- Per-match attacker effectiveness (the summand of
`compute_attacker_fitness`). -/
def matchEffectiveness (w : ScoringWeights) (r : MatchResult) : ℚ :=
  r.max_criticality_reached * (r.hosts_compromised : ℚ) * w.host_criticality_multiplier
    + (r.credentials_obtained : ℚ) * w.credential_value
    + (if r.data_exfiltrated then w.exfiltration_bonus else 0)
    + (r.kill_chain_length : ℚ) * w.kill_chain_length_value

/-- Per-match attacker stealth (the summand of `compute_attacker_fitness`). -/
def matchStealth (r : MatchResult) : ℚ :=
  1 - (r.techniques_detected : ℚ) / ((max r.techniques_attempted 1 : Nat) : ℚ)

/-- `aces.simulation.scoring.compute_attacker_fitness`: the pair
(mean effectiveness, mean stealth) over the match results. -/
def computeAttackerFitness (results : List MatchResult) (cfg : Config) : ℚ × ℚ :=
  if results.isEmpty then (0, 0)
  else
    let w := cfg.scoring
    let total_effectiveness := (results.map (matchEffectiveness w)).sum
    let total_stealth := (results.map matchStealth).sum
    (total_effectiveness / (results.length : ℚ), total_stealth / (results.length : ℚ))

/-- Per-match defender coverage (the summand of `compute_defender_fitness`). -/
def matchCoverage (w : ScoringWeights) (r : MatchResult) : ℚ :=
  let detection_rate := (r.techniques_detected : ℚ) / ((max r.techniques_attempted 1 : Nat) : ℚ)
  detection_rate * 50 + (r.techniques_detected : ℚ) * w.detection_value
    + (if !r.data_exfiltrated then w.no_exfil_bonus else 0)

/-- `aces.simulation.scoring.compute_defender_fitness`: mean coverage paired
with the placeholder efficiency 0.5 (the real efficiency is computed by the
driver, per genome). -/
def computeDefenderFitness (results : List MatchResult) (cfg : Config) : ℚ × ℚ :=
  if results.isEmpty then (0, 0)
  else
    let w := cfg.scoring
    let total_coverage := (results.map (matchCoverage w)).sum
    (total_coverage / (results.length : ℚ), 1/2)

/-- The genome-level defender efficiency computed inline by
`CoevolutionEngine.run` (coevolution.py lines 137-139). -/
def defenderEfficiency (d : DefenseGenome) : ℚ :=
  let fp_load := d.totalFalsePositiveLoad
  let rules_over_budget := (d.genes.length : ℚ) / ((max d.budget 1 : Nat) : ℚ)
  (1 / (1 + fp_load)) * (1 - rules_over_budget * (1/2))

/-- The fitness pair `CoevolutionEngine.run` assigns to a defender after its
matchups: coverage from the match results, efficiency from the genome alone
(coevolution.py lines 135-140). -/
def evalDefenderFitness (results : List MatchResult) (d : DefenseGenome)
    (cfg : Config) : ℚ × ℚ :=
  let fitness := computeDefenderFitness results cfg
  (fitness.1, defenderEfficiency d)

/-- Per-generation metrics (`aces.evolution.metrics.GenerationMetrics`).
The source field `detection_coverage_ratio` is carried here under the name
`detection_coverage_frac`. -/
structure GenerationMetrics where
  generation : Nat
  attacker_fitness_mean : ℚ := 0
  attacker_fitness_max : ℚ := 0
  attacker_fitness_min : ℚ := 0
  attacker_fitness_std : ℚ := 0
  attacker_stealth_mean : ℚ := 0
  defender_coverage_mean : ℚ := 0
  defender_coverage_max : ℚ := 0
  defender_efficiency_mean : ℚ := 0
  technique_frequencies : List (String × ℚ) := []
  detection_coverage_frac : ℚ := 0
  attacker_diversity : ℚ := 0
  defender_diversity : ℚ := 0
  unique_kill_chains : Nat := 0
deriving DecidableEq, Repr

/-- `MetricsCollector.detect_stagnation`: true when at least `window`
generations are recorded and the spread of `attacker_fitness_max` over the
trailing window is strictly below 0.5. -/
def detectStagnation (history : List GenerationMetrics) (window : Nat) : Bool :=
  if history.length < window then false
  else
    let recent := lastSlice history window
    let max_vals := recent.map (fun m => m.attacker_fitness_max)
    if max_vals.isEmpty then false
    else
      let improvement := qListMax max_vals - qListMin max_vals
      improvement < 1/2

/-- Python `int(q)`: truncation toward zero. -/
def pyInt (q : ℚ) : ℤ := if 0 ≤ q then ⌊q⌋ else ⌈q⌉

/-- Python slice `xs[:i]` for a possibly negative `i`. -/
def pySliceTo {α : Type} (xs : List α) (i : ℤ) : List α :=
  if 0 ≤ i then xs.take i.toNat else xs.take (xs.length - (-i).toNat)

/-- The state assembled by `CoevolutionEngine.__init__`. -/
structure CoevolutionEngineState where
  config : Config
  registry : List TechniqueDef
  network : NetworkGraph
  attacker_hof : List AttackGenome
  defender_hof : List DefenseGenome
  metrics_history : List GenerationMetrics
deriving Repr

/-- `CoevolutionEngine.__init__`: stores the configuration, the registry,
the network and empty halls of fame and metrics.  The source performs no
validation of any configuration value; the `Except` result models the
Python exception surface, and no configuration is ever rejected. -/
def coevolutionInit (config : Config) (network : NetworkGraph) :
    Except String CoevolutionEngineState :=
  Except.ok
    { config := config
      registry := catalogTechniques
      network := network
      attacker_hof := []
      defender_hof := []
      metrics_history := [] }

/-- The opponent-assembly step of `CoevolutionEngine.run` (lines 96-110 for
attackers; the defender side is symmetric): sample `matchups_per_eval`
opponents from the population and, when the hall of fame is non-empty,
replace the tail with a HOF sample of size
`min(max(1, int(matchups_per_eval * hof_opponent_fraction)), len(hof))`. -/
def assembleOpponents {α : Type} (cfg : Config) (pool hof : List α) (r : Rng) :
    List α × Rng :=
  let (opponents, r1) := Rng.sample pool (min cfg.matchups_per_eval pool.length) r
  if hof.isEmpty then (opponents, r1)
  else
    let n_hof :=
      max 1 (pyInt ((cfg.matchups_per_eval : ℚ) * cfg.hof_opponent_fraction)).toNat
    let (hof_sample, r2) := Rng.sample hof (min n_hof hof.length) r1
    (pySliceTo opponents ((cfg.matchups_per_eval : ℤ) - (hof_sample.length : ℤ))
       ++ hof_sample, r2)

/-- An individual as `inject_immigrants` sees it: a payload plus the DEAP
fitness fields it reads (`fitness.valid`, `fitness.values[0]`) and the
Python object identity `id(x)` used for removal. -/
structure ScoredInd (α : Type) where
  ind : α
  fitness_valid : Bool
  fitness0 : ℚ
  oid : Nat
deriving Repr

/-- Generate `n` fresh individuals, threading the random source (the
`create_random_attacker` / `create_random_defender` loop of
`inject_immigrants`, abstracted over the generator). -/
def genMany {α : Type} (gen : Rng → α × Rng) : Nat → Rng → List α × Rng
  | 0, r => ([], r)
  | n + 1, r =>
      let (x, r') := gen r
      let (xs, r'') := genMany gen n r'
      (x :: xs, r'')

/-- `PopulationManager.inject_immigrants`: remove the
`max(1, int(len(population) * fraction))` worst valid individuals (by first
fitness objective, identified by object identity) and append that many
freshly generated individuals. -/
def injectImmigrants {α : Type} (population : List (ScoredInd α)) (fraction : ℚ)
    (gen : Rng → ScoredInd α × Rng) (r : Rng) : List (ScoredInd α) × Rng :=
  let n_immigrants := max 1 (pyInt ((population.length : ℚ) * fraction)).toNat
  let valid_pop := population.filter (fun x => x.fitness_valid)
  let population1 :=
    if valid_pop.isEmpty then population
    else
      let sorted := valid_pop.mergeSort (fun a b => decide (a.fitness0 ≤ b.fitness0))
      let remove_set := (sorted.take n_immigrants).map (fun x => x.oid)
      population.filter (fun x => decide (x.oid ∉ remove_set))
  let (fresh, r') := genMany gen n_immigrants r
  (population1 ++ fresh, r')

/-- Events appended to the state by one engine step. -/
def newEvents (acc acc' : StepAcc) : List SimEvent :=
  acc'.state.events.drop acc.state.events.length

/-- Per-gene well-formedness of the attacker genome invariants: technique id
in the catalog, stealth modifier in [0, 1]. -/
def geneOk (g : AttackGene) : Prop :=
  (∃ td ∈ catalogTechniques, td.id = g.technique_id) ∧
    0 ≤ g.stealth_modifier ∧ g.stealth_modifier ≤ 1

/-- The attacker genome invariants of the specification: gene 0 is an
initial-access technique, the length is between 2 and the genome's maximum,
every technique id is in the catalog and every stealth modifier is in [0, 1]. -/
def AttackerInv (g : AttackGenome) : Prop :=
  2 ≤ g.genes.length ∧ g.genes.length ≤ g.max_length ∧
    (∀ gene ∈ g.genes, geneOk gene) ∧
    (∃ g0 ∈ g.genes.take 1, ∃ td ∈ catalogTechniques,
      td.id = g0.technique_id ∧ td.tactic = Tactic.initial_access)

/-- The counter invariant of the simulate loop. -/
def AccInv (acc : StepAcc) : Prop :=
  acc.detected + acc.successful ≤ acc.attempted ∧
    acc.consecutive ≤ acc.successful ∧
    acc.max_consecutive ≤ acc.successful

/-- Default configuration (every field at its source default). -/
def cfgDefault : Config := {}

/-- A deterministic oracle stream: every raw draw is zero, cursor at `n`. -/
def rngAt (n : Nat) : Rng := { nats := fun _ => 0, units := fun _ => 0, idx := n }

/-- The zero oracle at cursor 0. -/
def rngZero : Rng := rngAt 0

/-- Concrete detection rule (witness data). -/
def ruleC3a : DetectionGene :=
  { technique_detected := "T1566.001", data_source := "Email Gateway",
    confidence := 9/10, false_positive_rate := 1/10 }

/-- Concrete detection rule (witness data). -/
def ruleC3b : DetectionGene :=
  { technique_detected := "T1190", data_source := "Network Traffic",
    detection_logic := DetectionLogic.behavioral, confidence := 1/2,
    false_positive_rate := 1/10 }

/-- Concrete two-rule defender with the default budget (witness data). -/
def defenderC3 : DefenseGenome := { genes := [ruleC3a, ruleC3b], budget := 15 }

/-- A blank match result: every field at its default. -/
def resultBlank : MatchResult := {}

/-- Two-generation history whose max-fitness spread is exactly 0.5
(counterexample data for the stagnation boundary). -/
def histC5 : List GenerationMetrics :=
  [{ generation := 0, attacker_fitness_max := 0 },
   { generation := 1, attacker_fitness_max := 1/2 }]

/-- Match result with zero hosts compromised and zero criticality
(counterexample data). -/
def resC6low : MatchResult := { hosts_compromised := 0, max_criticality_reached := 0 }

/-- As `resC6low` but with maximal criticality reached (counterexample data). -/
def resC6high : MatchResult := { hosts_compromised := 0, max_criticality_reached := 1 }

/-- Match result with a compromised host (witness data). -/
def resC6base : MatchResult :=
  { hosts_compromised := 2, max_criticality_reached := 1/2, credentials_obtained := 1 }

/-- Out-of-range configuration: defender budget below 3 and population size
below 2 (counterexample data). -/
def badConfig : Config := { population_size := 1, defender_budget := 0 }

/-- The empty network description. -/
def emptyNetwork : NetworkGraph :=
  { hosts := [], edges := [], credentials := [], segments := [] }

/-- Configuration for which `max(1, int(K*f))` and `⌈K*f⌉` differ:
K = 5 matchups, HOF fraction 0.3 (counterexample data). -/
def cfgC9 : Config := { matchups_per_eval := 5, hof_opponent_fraction := 3/10 }

/-- Opponent pool (counterexample data). -/
def poolC9 : List String := ["p0", "p1", "p2", "p3", "p4"]

/-- Hall of fame, disjoint from the pool (counterexample data). -/
def hofC9 : List String := ["h0", "h1", "h2"]

/-- Four-member all-valid population with distinct identities (witness data). -/
def popC9 : List (ScoredInd Unit) :=
  [{ ind := (), fitness_valid := true, fitness0 := 1, oid := 0 },
   { ind := (), fitness_valid := true, fitness0 := 2, oid := 1 },
   { ind := (), fitness_valid := true, fitness0 := 3, oid := 2 },
   { ind := (), fitness_valid := true, fitness0 := 4, oid := 3 }]

/-- Immigrant generator producing an invalid-fitness individual (witness data). -/
def genC9 : Rng → ScoredInd Unit × Rng :=
  fun r => ({ ind := (), fitness_valid := false, fitness0 := 0, oid := 100 }, r)

/-- One-host network whose host already has user privilege (witness data). -/
def hostC2 : Host :=
  { id := "h1", hostname := "h1", os := OSType.windows_10,
    role := HostRole.workstation, criticality := 0,
    privilege_level := PrivLevel.user }

/-- Network holding only `hostC2` (witness data). -/
def netC2 : NetworkGraph :=
  { hosts := [hostC2], edges := [], credentials := [], segments := [] }

/-- Simulation state over `netC2` (witness data). -/
def stateC2 : SimulationState := { network := netC2 }

/-- Technique carrying an elevate-privilege effect (witness data). -/
def techC2 : TechniqueDef :=
  { id := "TX", name := "", tactic := Tactic.execution, preconditions := [],
    effects := [{ type := EffectType.elevate_privilege, privilege_level := Option.some "system" }],
    base_success_rate := 1, stealth_base := 0, common_data_sources := [] }

/-- Gene referring to `techC2` (witness data). -/
def geneC2 : AttackGene := { technique_id := "TX" }

/-- Precondition-free initial-access technique that always succeeds
(witness data for the engine step). -/
def techC1 : TechniqueDef :=
  { id := "TA", name := "", tactic := Tactic.initial_access, preconditions := [],
    effects := [], base_success_rate := 1, stealth_base := 0,
    common_data_sources := [] }

/-- One-technique registry (witness data). -/
def regC1 : List TechniqueDef := [techC1]

/-- Rule covering `techC1` with full confidence and alert-only response
(witness data). -/
def ruleC1 : DetectionGene :=
  { technique_detected := "TA", data_source := "x", confidence := 1 }

/-- One-rule defender (witness data). -/
def defenderC1 : DefenseGenome := { genes := [ruleC1], budget := 15 }

/-- Network with a single edge from the external pseudo-host (witness data). -/
def netC1 : NetworkGraph :=
  { hosts := [], edges := [{ src := "external", dst := "h1", protocols := [] }],
    credentials := [], segments := [] }

/-- Initial simulation state over `netC1` (witness data). -/
def stateC1 : SimulationState := { network := netC1 }

/-- Initial step accumulator over `stateC1` (witness data). -/
def accC1 : StepAcc := { state := stateC1, rng := rngZero }

/-- Gene referring to `techC1` (witness data). -/
def geneC1 : AttackGene := { technique_id := "TA" }

/-- The detection event produced by the witness step. -/
def eventC1 : SimEvent :=
  { step := 0, technique_id := "TA", target_host := "h1",
    outcome := EventOutcome.detected, detection_rule := Option.some "TA",
    response_action := Option.some "alert_only" }

/-- Two-gene genome satisfying the invariants (witness data). -/
def genomeC4a : AttackGenome :=
  { genes := [{ technique_id := "T1566.001" }, { technique_id := "T1059.001" }],
    max_length := 12 }

/-- Three-gene genome satisfying the invariants (witness data). -/
def genomeC4b : AttackGenome :=
  { genes := [{ technique_id := "T1190" }, { technique_id := "T1018" },
              { technique_id := "T1048" }],
    max_length := 12 }

/-- C3: for every defender genome with positive budget, the efficiency
objective assigned by the driver equals
1/(1 + Σ FP-rates) × (1 − rules/budget × 0.5), and it is independent of the
per-match results. -/
theorem C3_defender_efficiency_formula (d : DefenseGenome) (cfg : Config)
    (results results' : List MatchResult) (hb : 0 < d.budget) :
    (evalDefenderFitness results d cfg).2 =
      (1 / (1 + (d.genes.map (fun g => g.false_positive_rate)).sum)) *
        (1 - ((d.genes.length : ℚ) / (d.budget : ℚ)) * (1/2)) ∧
    (evalDefenderFitness results d cfg).2 = (evalDefenderFitness results' d cfg).2 := by
  refine ⟨?_, rfl⟩
  have h1 : max d.budget 1 = d.budget := max_eq_left hb
  simp [evalDefenderFitness, defenderEfficiency, DefenseGenome.totalFalsePositiveLoad, h1]

/-- C3 witness: the efficiency of a concrete two-rule defender with budget 15
matches the formula and ignores the match results. -/
theorem C3_defender_efficiency_formula_witness :
    0 < defenderC3.budget ∧
    ((evalDefenderFitness [] defenderC3 cfgDefault).2 =
      (1 / (1 + (defenderC3.genes.map (fun g => g.false_positive_rate)).sum)) *
        (1 - ((defenderC3.genes.length : ℚ) / (defenderC3.budget : ℚ)) * (1/2)) ∧
     (evalDefenderFitness [] defenderC3 cfgDefault).2 =
       (evalDefenderFitness [resultBlank] defenderC3 cfgDefault).2) :=
  ⟨by decide,
   C3_defender_efficiency_formula defenderC3 cfgDefault [] [resultBlank] (by decide)⟩

/-- C8 counterexample: the driver accepts a configuration with defender
budget 0 and population size 1; construction succeeds instead of failing. -/
theorem C8_construction_accepts_bad_config :
    (coevolutionInit badConfig emptyNetwork).isOk = true ∧
    badConfig.defender_budget < 3 ∧ badConfig.population_size < 2 :=
  ⟨rfl, by decide, by decide⟩

/-- C8 amended: driver construction performs no validation — it succeeds for
every configuration, storing it unchanged. -/
theorem C8_construction_never_fails (cfg : Config) (network : NetworkGraph) :
    ∃ st, coevolutionInit cfg network = Except.ok st ∧ st.config = cfg :=
  ⟨_, rfl, rfl⟩

/-- C5 amended: for every window length W ≥ 1, the stagnation detector
returns true iff at least W generations are recorded and max − min of the
last W max-fitness values is strictly below 0.5 (boundary excluded). -/
theorem C5_stagnation_iff (hist : List GenerationMetrics) (window : Nat)
    (hw : 1 ≤ window) :
    (detectStagnation hist window = true ↔
      window ≤ hist.length ∧
        qListMax ((lastSlice hist window).map (fun m => m.attacker_fitness_max)) -
          qListMin ((lastSlice hist window).map (fun m => m.attacker_fitness_max)) <
          1/2) := by
  unfold detectStagnation
  by_cases h : hist.length < window
  · simp only [if_pos h]
    constructor
    · intro hcon; exact absurd hcon (by simp)
    · intro ⟨h1, _⟩; omega
  · have hlen : window ≤ hist.length := Nat.le_of_not_lt h
    have hlw : (lastSlice hist window).length = window := by
      unfold lastSlice
      rw [if_neg (by omega : ¬ window = 0), List.length_drop]
      omega
    have hne : ((lastSlice hist window).map (fun m => m.attacker_fitness_max)).isEmpty = false := by
      rw [List.isEmpty_eq_false_iff_exists_mem]
      have : 0 < (lastSlice hist window).length := by omega
      rcases List.exists_mem_of_length_pos this with ⟨m, hm⟩
      exact ⟨_, List.mem_map_of_mem _ hm⟩
    simp only [if_neg h, hne, Bool.false_eq_true, if_false, decide_eq_true_eq]
    exact ⟨fun hx => ⟨hlen, hx⟩, fun hx => hx.2⟩

/-- C5 witness: the characterization applied to the concrete two-generation
history at window 2. -/
theorem C5_stagnation_iff_witness :
    (detectStagnation histC5 2 = true ↔
      2 ≤ histC5.length ∧
        qListMax ((lastSlice histC5 2).map (fun m => m.attacker_fitness_max)) -
          qListMin ((lastSlice histC5 2).map (fun m => m.attacker_fitness_max)) <
          1/2) :=
  C5_stagnation_iff histC5 2 (by decide)

/-- C5 counterexample: on a history whose spread over the window is exactly
0.5 the detector returns false, though the claim (boundary included) says
true. -/
theorem C5_boundary_returns_false :
    detectStagnation histC5 2 = false ∧ 2 ≤ histC5.length ∧
      qListMax ((lastSlice histC5 2).map (fun m => m.attacker_fitness_max)) -
        qListMin ((lastSlice histC5 2).map (fun m => m.attacker_fitness_max)) =
        1/2 := by
  refine ⟨?_, by decide, ?_⟩
  · norm_num [detectStagnation, histC5, lastSlice, qListMax, qListMin]
  · norm_num [histC5, lastSlice, qListMax, qListMin]

/-- C6 counterexample: raising max-criticality from 0 to 1 while no host is
compromised leaves the attacker effectiveness unchanged, refuting the
claimed strict increase. -/
theorem C6_criticality_no_strict_increase :
    resC6low.max_criticality_reached < resC6high.max_criticality_reached ∧
    resC6high = { resC6low with max_criticality_reached := 1 } ∧
    (computeAttackerFitness [resC6high] cfgDefault).1 =
      (computeAttackerFitness [resC6low] cfgDefault).1 := by
  refine ⟨by norm_num [resC6low, resC6high], rfl, ?_⟩
  norm_num [computeAttackerFitness, matchEffectiveness, resC6low, resC6high, cfgDefault]

/-- C6 amended: with at least one compromised host in the affected result
and a positive criticality weight, a strictly higher max-criticality-reached
(all other fields equal) strictly raises the attacker effectiveness. -/
theorem C6_criticality_strict_increase (cfg : Config) (pre post : List MatchResult)
    (r r' : MatchResult)
    (hshape : r' = { r with max_criticality_reached := r'.max_criticality_reached })
    (hlt : r.max_criticality_reached < r'.max_criticality_reached)
    (hhosts : 1 ≤ r.hosts_compromised)
    (hw : 0 < cfg.scoring.host_criticality_multiplier) :
    (computeAttackerFitness (pre ++ r :: post) cfg).1 <
      (computeAttackerFitness (pre ++ r' :: post) cfg).1 := by
  have hlen : ((pre ++ r' :: post).length : ℚ) = ((pre ++ r :: post).length : ℚ) := by
    simp
  have hne : (pre ++ r :: post).isEmpty = false := by simp
  have hne' : (pre ++ r' :: post).isEmpty = false := by simp
  have hn : (0 : ℚ) < ((pre ++ r :: post).length : ℚ) := by
    have : 0 < (pre ++ r :: post).length := by simp
    exact_mod_cast this
  have hproj : r'.hosts_compromised = r.hosts_compromised ∧
      r'.credentials_obtained = r.credentials_obtained ∧
      r'.data_exfiltrated = r.data_exfiltrated ∧
      r'.kill_chain_length = r.kill_chain_length := by
    rw [hshape]; exact ⟨rfl, rfl, rfl, rfl⟩
  have hhq : (0 : ℚ) < (r.hosts_compromised : ℚ) := by
    have : 0 < r.hosts_compromised := hhosts
    exact_mod_cast this
  have hmid : matchEffectiveness cfg.scoring r < matchEffectiveness cfg.scoring r' := by
    unfold matchEffectiveness
    rw [hproj.1, hproj.2.1, hproj.2.2.1, hproj.2.2.2]
    have h1 : r.max_criticality_reached * (r.hosts_compromised : ℚ) <
        r'.max_criticality_reached * (r.hosts_compromised : ℚ) :=
      mul_lt_mul_of_pos_right hlt hhq
    have h2 : r.max_criticality_reached * (r.hosts_compromised : ℚ) *
        cfg.scoring.host_criticality_multiplier <
        r'.max_criticality_reached * (r.hosts_compromised : ℚ) *
          cfg.scoring.host_criticality_multiplier :=
      mul_lt_mul_of_pos_right h1 hw
    linarith
  simp only [computeAttackerFitness, hne, hne', Bool.false_eq_true, if_false, hlen]
  rw [div_lt_div_iff₀ hn hn]
  apply mul_lt_mul_of_pos_right ?_ hn
  simp only [List.map_append, List.sum_append, List.map_cons, List.sum_cons]
  linarith

/-- C6 witness: the strict increase at a concrete result with two
compromised hosts, criticality raised from 0.5 to 1. -/
theorem C6_criticality_strict_increase_witness :
    (computeAttackerFitness ([] ++ resC6base :: []) cfgDefault).1 <
      (computeAttackerFitness ([] ++ { resC6base with max_criticality_reached := 1 } :: []) cfgDefault).1 :=
  C6_criticality_strict_increase cfgDefault [] [] resC6base
    { resC6base with max_criticality_reached := 1 }
    rfl (by norm_num [resC6base]) (by decide) (by norm_num [cfgDefault])

/-- C7 counterexample: over a two-result list, flipping data-exfiltrated
false to true raises the mean effectiveness by 25, strictly less than the
exfiltration bonus of 50. -/
theorem C7_increase_below_bonus :
    (computeAttackerFitness [{ resultBlank with data_exfiltrated := true }, resultBlank] cfgDefault).1 -
      (computeAttackerFitness [resultBlank, resultBlank] cfgDefault).1 <
      cfgDefault.scoring.exfiltration_bonus := by
  norm_num [computeAttackerFitness, matchEffectiveness, resultBlank, cfgDefault]

/-- C7 amended: flipping one result's data-exfiltrated flag from false to
true raises the mean effectiveness by exactly W_exfil divided by the number
of results. -/
theorem C7_exfil_increase_exact (cfg : Config) (pre post : List MatchResult)
    (r : MatchResult) (hexfil : r.data_exfiltrated = false) :
    (computeAttackerFitness (pre ++ { r with data_exfiltrated := true } :: post) cfg).1 =
      (computeAttackerFitness (pre ++ r :: post) cfg).1 +
        cfg.scoring.exfiltration_bonus / ((pre ++ r :: post).length : ℚ) := by
  have hne : (pre ++ r :: post).isEmpty = false := by simp
  have hne' : (pre ++ { r with data_exfiltrated := true } :: post).isEmpty = false := by simp
  have hlen : ((pre ++ { r with data_exfiltrated := true } :: post).length : ℚ) =
      ((pre ++ r :: post).length : ℚ) := by simp
  have hmid : matchEffectiveness cfg.scoring { r with data_exfiltrated := true } =
      matchEffectiveness cfg.scoring r + cfg.scoring.exfiltration_bonus := by
    unfold matchEffectiveness
    simp [hexfil]
    ring
  simp only [computeAttackerFitness, hne, hne', Bool.false_eq_true, if_false, hlen]
  simp only [List.map_append, List.sum_append, List.map_cons, List.sum_cons, hmid]
  rw [div_add_div_same]
  ring_nf

/-- C7 witness: the exact increase applied to a concrete singleton list. -/
theorem C7_exfil_increase_exact_witness :
    (computeAttackerFitness ([] ++ { resultBlank with data_exfiltrated := true } :: []) cfgDefault).1 =
      (computeAttackerFitness ([] ++ resultBlank :: []) cfgDefault).1 +
        cfgDefault.scoring.exfiltration_bonus / (([] ++ resultBlank :: [] : List MatchResult).length : ℚ) :=
  C7_exfil_increase_exact cfgDefault [] [] resultBlank rfl

/-- A sample has length `min k |xs|`. -/
theorem Rng.sample_length {α : Type} :
    ∀ (k : Nat) (xs : List α) (r : Rng),
      (Rng.sample xs k r).1.length = min k xs.length := by
  intro k
  induction k with
  | zero => intro xs r; cases xs <;> simp [Rng.sample]
  | succ k ih =>
      intro xs r
      cases xs with
      | nil => simp [Rng.sample]
      | cons x xs =>
          have hi : (r.nats r.idx) % (x :: xs).length < (x :: xs).length :=
            Nat.mod_lt _ (by simp)
          simp only [Rng.sample, Rng.nextNat, List.length_cons, ih,
            List.length_eraseIdx]
          simp only [List.length_cons] at hi ⊢
          rw [if_pos hi]
          omega

/-- Every sampled element belongs to the sampled list. -/
theorem Rng.sample_subset {α : Type} :
    ∀ (k : Nat) (xs : List α) (r : Rng) (y : α),
      y ∈ (Rng.sample xs k r).1 → y ∈ xs := by
  intro k
  induction k with
  | zero => intro xs r y h; cases xs <;> simp [Rng.sample] at h
  | succ k ih =>
      intro xs r y h
      cases xs with
      | nil => simp [Rng.sample] at h
      | cons x xs =>
          simp only [Rng.sample, Rng.nextNat, List.mem_cons] at h
          rcases h with h | h
          · have hi : (r.nats r.idx) % (x :: xs).length < (x :: xs).length :=
              Nat.mod_lt _ (by simp)
            rw [List.getD_eq_getElem _ _ hi] at h
            subst h
            exact List.getElem_mem hi
          · exact List.eraseIdx_subset _ _ (ih _ _ _ h)

/-- C9 amended: when the defender hall of fame is non-empty, the number of
opponents replaced by hall-of-fame members is
`min(max(1, ⌊K × hof-fraction⌋), |HOF|)` — a floor with a minimum of one,
not a ceiling; and on stagnation, `max(1, ⌊N × immigrant-fraction⌋)` worst
individuals are removed and that many fresh random individuals appended
(again floor, not ceiling). -/
theorem C9_replacement_counts :
    (∀ (α : Type) (cfg : Config) (pool hof : List α) (r : Rng), hof ≠ [] →
      ∃ kept tl,
        (assembleOpponents cfg pool hof r).1 = kept ++ tl ∧
        tl.length =
          min (max 1 (pyInt ((cfg.matchups_per_eval : ℚ) * cfg.hof_opponent_fraction)).toNat)
            hof.length ∧
        ∀ x ∈ tl, x ∈ hof) ∧
    (∀ (α : Type) (population : List (ScoredInd α)) (fraction : ℚ)
        (gen : Rng → ScoredInd α × Rng) (r : Rng),
      (∀ x ∈ population, x.fitness_valid = true) →
      (population.map (fun x => x.oid)).Nodup →
      ∃ kept,
        (injectImmigrants population fraction gen r).1 =
          kept ++ (genMany gen (max 1 (pyInt ((population.length : ℚ) * fraction)).toNat) r).1 ∧
        kept.length = population.length -
          min (max 1 (pyInt ((population.length : ℚ) * fraction)).toNat) population.length ∧
        ∀ x ∈ kept, x ∈ population) := by
  constructor
  · intro α cfg pool hof r hhof
    have hne : hof.isEmpty = false := by simp [hhof]
    simp only [assembleOpponents, hne, Bool.false_eq_true, if_false]
    refine ⟨_, _, rfl, ?_, ?_⟩
    · rw [Rng.sample_length]
      omega
    · intro x hx
      exact Rng.sample_subset _ _ _ _ hx
  · intro α population fraction gen r hvalid hnodup
    simp only [injectImmigrants]
    have hfilter : population.filter (fun x => x.fitness_valid) = population :=
      List.filter_eq_self.mpr hvalid
    rw [hfilter]
    cases hpop : population with
    | nil =>
        refine ⟨[], ?_, ?_, ?_⟩ <;> simp
    | cons p ps =>
        rw [← hpop]
        have hne : population.isEmpty = false := by simp [hpop]
        simp only [hne, Bool.false_eq_true, if_false]
        set n := max 1 (pyInt ((population.length : ℚ) * fraction)).toNat with hn
        set sorted := population.mergeSort (fun a b => decide (a.fitness0 ≤ b.fitness0))
          with hsorted
        have hperm : sorted.Perm population := List.mergeSort_perm _ _
        have hlen_sorted : sorted.length = population.length := hperm.length_eq
        have hnodup' : (sorted.map (fun x => x.oid)).Nodup :=
          ((hperm.map (fun x => x.oid)).nodup_iff).mpr hnodup
        set A := sorted.take n with hA
        set B := sorted.drop n with hB
        have hAB : A ++ B = sorted := List.take_append_drop n sorted
        set rs := A.map (fun x => x.oid) with hrs
        have hInA : ∀ a ∈ A, a.oid ∈ rs := fun a ha => List.mem_map_of_mem _ ha
        have hNotInB : ∀ b ∈ B, b.oid ∉ rs := by
          intro b hb hcon
          have hdup : ((A ++ B).map (fun x => x.oid)).Nodup := by rw [hAB]; exact hnodup'
          rw [List.map_append, List.nodup_append] at hdup
          exact hdup.2.2 hcon (List.mem_map_of_mem _ hb)
        have hfB : List.Perm (population.filter (fun x => decide (x.oid ∉ rs)))
            (sorted.filter (fun x => decide (x.oid ∉ rs))) :=
          (hperm.filter _).symm
        have hsortedf : sorted.filter (fun x => decide (x.oid ∉ rs)) = B := by
          rw [← hAB, List.filter_append]
          have h1 : A.filter (fun x => decide (x.oid ∉ rs)) = [] := by
            rw [List.filter_eq_nil_iff]
            intro a ha
            simp [hInA a ha]
          have h2 : B.filter (fun x => decide (x.oid ∉ rs)) = B := by
            rw [List.filter_eq_self]
            intro b hb
            simp [hNotInB b hb]
          rw [h1, h2, List.nil_append]
        refine ⟨_, rfl, ?_, ?_⟩
        · rw [hfB.length_eq, hsortedf, hB, List.length_drop, hlen_sorted]
          omega
        · intro x hx
          exact List.mem_of_mem_filter hx

/-- C9 witness: the two count statements applied to a concrete pool, hall of
fame and four-member population. -/
theorem C9_replacement_counts_witness :
    (∃ kept tl,
        (assembleOpponents cfgDefault poolC9 hofC9 rngZero).1 = kept ++ tl ∧
        tl.length =
          min (max 1 (pyInt ((cfgDefault.matchups_per_eval : ℚ) * cfgDefault.hof_opponent_fraction)).toNat)
            hofC9.length ∧
        ∀ x ∈ tl, x ∈ hofC9) ∧
    (∃ kept,
        (injectImmigrants popC9 (1/4) genC9 rngZero).1 =
          kept ++ (genMany genC9 (max 1 (pyInt ((popC9.length : ℚ) * (1/4))).toNat) rngZero).1 ∧
        kept.length = popC9.length -
          min (max 1 (pyInt ((popC9.length : ℚ) * (1/4))).toNat) popC9.length ∧
        ∀ x ∈ kept, x ∈ popC9) :=
  ⟨C9_replacement_counts.1 String cfgDefault poolC9 hofC9 rngZero (by decide),
   C9_replacement_counts.2 Unit popC9 (1/4) genC9 rngZero (by decide) (by decide)⟩

/-- C9 counterexample: with 5 matchups per evaluation and HOF fraction 0.3,
the code draws exactly 1 hall-of-fame opponent while the claimed ceiling
⌈5 × 0.3⌉ is 2. -/
theorem C9_hof_count_is_floor_not_ceiling :
    ((assembleOpponents cfgC9 poolC9 hofC9 rngZero).1.filter
        (fun x => decide (x ∈ hofC9))).length = 1 ∧
    (⌈(cfgC9.matchups_per_eval : ℚ) * cfgC9.hof_opponent_fraction⌉ : ℤ) = 2 := by
  constructor
  · have hfloor : pyInt ((cfgC9.matchups_per_eval : ℚ) * cfgC9.hof_opponent_fraction) = 1 := by
      norm_num [pyInt, cfgC9]
    have hassemble : (assembleOpponents cfgC9 poolC9 hofC9 rngZero).1 =
        ["p0", "p1", "p2", "p3", "h0"] := by
      simp only [assembleOpponents, hfloor]
      decide
    rw [hassemble]
    decide
  · have hq : ((cfgC9.matchups_per_eval : ℚ) * cfgC9.hof_opponent_fraction) = 3/2 := by
      norm_num [cfgC9]
    rw [hq, Int.ceil_eq_iff]
    norm_num

/-- Every engine step lands in exactly one of the three terminals: failure,
detection, or success. -/
theorem simStep_shape (reg : List TechniqueDef) (defender : DefenseGenome)
    (stepIdx : Nat) (gene : AttackGene) (acc : StepAcc) :
    (∃ r e, e.outcome = EventOutcome.precondition_failure ∧
        simStep reg defender stepIdx gene acc = simStepFail acc r e) ∨
    (∃ r tech target mr,
        simStep reg defender stepIdx gene acc = simStepDetected acc r stepIdx tech target mr) ∨
    (∃ r tech target,
        simStep reg defender stepIdx gene acc = simStepSuccess acc r stepIdx tech target gene) := by
  simp only [simStep]
  repeat' split
  all_goals first
    | exact Or.inl ⟨_, _, rfl, rfl⟩
    | exact Or.inr (Or.inl ⟨_, _, _, _, rfl⟩)
    | exact Or.inr (Or.inr ⟨_, _, _, rfl⟩)

/-- One engine step preserves the counter invariant and counts one attempt. -/
theorem simStep_accInv (reg : List TechniqueDef) (defender : DefenseGenome)
    (stepIdx : Nat) (gene : AttackGene) (acc : StepAcc) (h : AccInv acc) :
    AccInv (simStep reg defender stepIdx gene acc) ∧
    (simStep reg defender stepIdx gene acc).attempted = acc.attempted + 1 := by
  obtain ⟨h1, h2, h3⟩ := h
  rcases simStep_shape reg defender stepIdx gene acc with
    ⟨r, e, _, heq⟩ | ⟨r, tech, target, mr, heq⟩ | ⟨r, tech, target, heq⟩ <;>
    rw [heq] <;>
    dsimp only [simStepFail, simStepDetected, simStepSuccess, AccInv] <;>
    refine ⟨⟨?_, ?_, ?_⟩, rfl⟩ <;> omega

/-- The gene loop preserves the counter invariant and counts one attempt per
gene. -/
theorem runSteps_accInv (reg : List TechniqueDef) (defender : DefenseGenome) :
    ∀ (gs : List AttackGene) (i : Nat) (acc : StepAcc), AccInv acc →
      AccInv (runSteps reg defender i gs acc) ∧
      (runSteps reg defender i gs acc).attempted = acc.attempted + gs.length := by
  intro gs
  induction gs with
  | nil => intro i acc h; exact ⟨h, rfl⟩
  | cons g gs ih =>
      intro i acc h
      have hstep := simStep_accInv reg defender i g acc h
      have hrest := ih (i + 1) (simStep reg defender i g acc) hstep.1
      refine ⟨hrest.1, ?_⟩
      simp only [runSteps] at hrest ⊢
      rw [hrest.2, hstep.2, List.length_cons]
      omega

/-- C10: for every registry, attacker, defender, network and random source,
the match result of `simulate` counts one attempt per gene, its successes
plus detections never exceed its attempts, and the kill-chain length never
exceeds the success count. -/
theorem C10_match_result_counts (reg : List TechniqueDef) (attacker : AttackGenome)
    (defender : DefenseGenome) (network : NetworkGraph) (r : Rng) :
    (simulate reg attacker defender network r).techniques_attempted =
      attacker.genes.length ∧
    (simulate reg attacker defender network r).techniques_successful +
        (simulate reg attacker defender network r).techniques_detected ≤
      (simulate reg attacker defender network r).techniques_attempted ∧
    (simulate reg attacker defender network r).kill_chain_length ≤
      (simulate reg attacker defender network r).techniques_successful := by
  have h0 : AccInv { state := { network := network }, rng := r } := by
    refine ⟨?_, ?_, ?_⟩ <;> simp
  have h := runSteps_accInv reg defender attacker.genes 0
    { state := { network := network }, rng := r } h0
  obtain ⟨⟨ha, hb, hc⟩, hd⟩ := h
  have h0' : ({ state := { network := network }, rng := r } : StepAcc).attempted = 0 := rfl
  simp only [simulate]
  refine ⟨?_, ?_, ?_⟩ <;> dsimp only [AccInv] at ha hb hc ⊢ <;> omega

/-- Host lookup through an id-preserving per-host map. -/
theorem getHost?_map (g : NetworkGraph) (f : Host → Host)
    (hf : ∀ h, (f h).id = h.id) (hid : String) :
    ({ g with hosts := g.hosts.map f } : NetworkGraph).getHost? hid =
      (g.getHost? hid).map f := by
  unfold NetworkGraph.getHost?
  dsimp only
  have hp : ((fun h : Host => decide (h.id = hid)) ∘ f) =
      (fun h : Host => decide (h.id = hid)) := by
    funext x
    simp [Function.comp, hf]
  rw [List.find?_map, hp]

/-- `compromise_host` only raises the looked-up host's privilege rank. -/
theorem compromiseHost_rank_le (g : NetworkGraph) (hid : String) (p : PrivLevel)
    (qid : String) (h : Host) (hq : g.getHost? qid = some h) :
    ∃ h', (g.compromiseHost hid p).getHost? qid = some h' ∧
      h.privilege_level.rank ≤ h'.privilege_level.rank := by
  have hf : ∀ x : Host,
      ((fun x : Host => if x.id = hid then
        { x with
          is_compromised := true
          privilege_level :=
            if x.privilege_level.rank ≤ p.rank then p else x.privilege_level } else x) x).id
        = x.id := by
    intro x
    by_cases hc : x.id = hid <;> simp [hc]
  unfold NetworkGraph.compromiseHost
  rw [getHost?_map g _ hf qid, hq]
  refine ⟨_, rfl, ?_⟩
  by_cases hc : h.id = hid
  · simp only [hc, if_pos]
    by_cases hp : h.privilege_level.rank ≤ p.rank <;> simp [hp]
  · simp [hc]

/-- `setDataStaged` preserves every host's privilege level. -/
theorem setDataStaged_rank_eq (g : NetworkGraph) (hid : String) (qid : String)
    (h : Host) (hq : g.getHost? qid = some h) :
    ∃ h', (g.setDataStaged hid).getHost? qid = some h' ∧
      h.privilege_level.rank = h'.privilege_level.rank := by
  have hf : ∀ x : Host,
      ((fun x : Host => if x.id = hid then { x with data_staged := true } else x) x).id
        = x.id := by
    intro x
    by_cases hc : x.id = hid <;> simp [hc]
  unfold NetworkGraph.setDataStaged
  rw [getHost?_map g _ hf qid, hq]
  refine ⟨_, rfl, ?_⟩
  by_cases hc : h.id = hid <;> simp [hc]

/-- One effect of `_apply_effects` never lowers any host's privilege rank. -/
theorem applyOneEffect_rank_le (tech : TechniqueDef) (target_id : String)
    (st : SimulationState × List (String × String)) (effect : Effect)
    (qid : String) (h : Host) (hq : st.1.network.getHost? qid = some h) :
    ∃ h', (applyOneEffect tech target_id st effect).1.network.getHost? qid = some h' ∧
      h.privilege_level.rank ≤ h'.privilege_level.rank := by
  rcases he : effect.type <;>
    (unfold applyOneEffect; rw [he]; dsimp only)
  case gain_foothold => exact compromiseHost_rank_le _ _ _ _ _ hq
  case elevate_privilege => exact compromiseHost_rank_le _ _ _ _ _ hq
  case harvest_credentials => exact ⟨h, hq, le_refl _⟩
  case establish_persistence => exact ⟨h, hq, le_refl _⟩
  case move_laterally => exact compromiseHost_rank_le _ _ _ _ _ hq
  case exfiltrate_data => exact ⟨h, hq, le_refl _⟩
  case execute_command => exact ⟨h, hq, le_refl _⟩
  case discover_hosts =>
      rcases hfind : List.find?
          (fun p => decide (p.1 = (st.1.network.getHostD target_id).segment))
          st.1.network.segments with _ | pr
      · simp only [hfind]
        exact ⟨h, hq, le_refl _⟩
      · simp only [hfind]
        by_cases hseg : (st.1.network.getHostD target_id).segment = "" <;>
          simp only [hseg, if_pos, if_neg, if_true, if_false, reduceIte] <;>
          exact ⟨h, hq, le_refl _⟩
  case reduce_detection => exact ⟨h, hq, le_refl _⟩
  case increase_stealth => exact ⟨h, hq, le_refl _⟩
  case stage_data =>
      obtain ⟨h', hh', heq2⟩ := setDataStaged_rank_eq st.1.network target_id qid h hq
      exact ⟨h', hh', le_of_eq heq2⟩
  case encrypt_host => exact ⟨h, hq, le_refl _⟩
  case stop_services => exact ⟨h, hq, le_refl _⟩

/-- The effect fold never lowers any host's privilege rank. -/
theorem effectFold_rank_le (tech : TechniqueDef) (target_id : String) :
    ∀ (effects : List Effect) (st : SimulationState × List (String × String))
      (qid : String) (h : Host),
      st.1.network.getHost? qid = some h →
      ∃ h', ((effects.foldl (applyOneEffect tech target_id) st).1.network.getHost? qid
          = some h') ∧ h.privilege_level.rank ≤ h'.privilege_level.rank := by
  intro effects
  induction effects with
  | nil => intro st qid h hq; exact ⟨h, hq, le_refl _⟩
  | cons e es ih =>
      intro st qid h hq
      obtain ⟨h1, hh1, hle1⟩ := applyOneEffect_rank_le tech target_id st e qid h hq
      obtain ⟨h2, hh2, hle2⟩ := ih (applyOneEffect tech target_id st e) qid h1 hh1
      exact ⟨h2, hh2, le_trans hle1 hle2⟩

/-- C2: `compromise_host` marks the host compromised and sets its privilege
to the maximum of the requested and the current level (never downgrading),
and no effect applied by `_apply_effects` lowers any host's privilege. -/
theorem C2_privilege_monotone :
    (∀ (g : NetworkGraph) (host_id : String) (p : PrivLevel) (h : Host),
      g.getHost? host_id = some h →
      ∃ h', (g.compromiseHost host_id p).getHost? host_id = some h' ∧
        h'.privilege_level.rank = max p.rank h.privilege_level.rank ∧
        h'.is_compromised = true) ∧
    (∀ (tech : TechniqueDef) (target_id : String) (gene : AttackGene)
        (s : SimulationState) (qid : String) (h : Host),
      s.network.getHost? qid = some h →
      ∃ h', (applyEffects tech target_id gene s).1.network.getHost? qid = some h' ∧
        h.privilege_level.rank ≤ h'.privilege_level.rank) := by
  constructor
  · intro g host_id p h hq
    have hid : h.id = host_id := by
      have := List.find?_some hq
      simpa using this
    have hf : ∀ x : Host,
        ((fun x : Host => if x.id = host_id then
          { x with
            is_compromised := true
            privilege_level :=
              if x.privilege_level.rank ≤ p.rank then p else x.privilege_level } else x) x).id
          = x.id := by
      intro x
      by_cases hc : x.id = host_id <;> simp [hc]
    unfold NetworkGraph.compromiseHost
    rw [getHost?_map g _ hf host_id, hq]
    refine ⟨_, rfl, ?_, ?_⟩
    · simp only [hid, if_pos]
      by_cases hp : h.privilege_level.rank ≤ p.rank
      · simp only [hp, if_pos]
        omega
      · simp only [hp, if_neg, reduceIte]
        omega
    · simp [hid]
  · intro tech target_id gene s qid h hq
    unfold applyEffects
    exact effectFold_rank_le tech target_id tech.effects (s, []) qid h hq

/-- C2 witness: the maximum-join at a concrete host with user privilege
raised to admin, and effect application of a concrete elevate-privilege
technique on a concrete state. -/
theorem C2_privilege_monotone_witness :
    (∃ h', (netC2.compromiseHost "h1" PrivLevel.admin).getHost? "h1" = some h' ∧
      h'.privilege_level.rank = max PrivLevel.admin.rank hostC2.privilege_level.rank ∧
      h'.is_compromised = true) ∧
    (∃ h', (applyEffects techC2 "h1" geneC2 stateC2).1.network.getHost? "h1" = some h' ∧
      hostC2.privilege_level.rank ≤ h'.privilege_level.rank) :=
  ⟨C2_privilege_monotone.1 netC2 "h1" PrivLevel.admin hostC2 rfl,
   C2_privilege_monotone.2 techC2 "h1" geneC2 stateC2 "h1" hostC2 rfl⟩

/-- A response action only touches the isolated-host and revoked-credential
sets. -/
theorem applyResponse_preserves (resp : ResponseAction) (target : String)
    (s : SimulationState) :
    (applyResponse resp target s).compromised_hosts = s.compromised_hosts ∧
    (applyResponse resp target s).obtained_credentials = s.obtained_credentials ∧
    (applyResponse resp target s).data_exfiltrated = s.data_exfiltrated ∧
    (applyResponse resp target s).persistence_hosts = s.persistence_hosts ∧
    (applyResponse resp target s).network = s.network ∧
    (applyResponse resp target s).events = s.events := by
  cases resp <;> simp [applyResponse]

/-- A failed step appends exactly its failure event. -/
theorem newEvents_fail (acc : StepAcc) (r : Rng) (e : SimEvent) :
    newEvents acc (simStepFail acc r e) = [e] := by
  simp [newEvents, simStepFail, SimulationState.recordEvent, List.drop_left]

/-- A detected step appends exactly its detection event. -/
theorem newEvents_detected (acc : StepAcc) (r : Rng) (stepIdx : Nat)
    (tech : TechniqueDef) (target : String) (mr : DetectionGene) :
    newEvents acc (simStepDetected acc r stepIdx tech target mr) =
      [{ step := stepIdx, technique_id := tech.id, target_host := target,
         outcome := EventOutcome.detected,
         detection_rule := Option.some mr.technique_detected,
         response_action := Option.some (responseActionString mr.response_action) }] := by
  have hev := (applyResponse_preserves mr.response_action target acc.state).2.2.2.2.2
  simp [newEvents, simStepDetected, SimulationState.recordEvent, hev, List.drop_left]

/-- One effect leaves the event log untouched. -/
theorem applyOneEffect_events (tech : TechniqueDef) (target_id : String)
    (st : SimulationState × List (String × String)) (effect : Effect) :
    (applyOneEffect tech target_id st effect).1.events = st.1.events := by
  rcases he : effect.type <;>
    (unfold applyOneEffect; rw [he]; try dsimp only)
  case discover_hosts =>
      rcases hfind : List.find?
          (fun p => decide (p.1 = (st.1.network.getHostD target_id).segment))
          st.1.network.segments with _ | pr
      · simp only [hfind]
      · simp only [hfind]
        by_cases hseg : (st.1.network.getHostD target_id).segment = "" <;>
          simp only [hseg, if_pos, if_neg, if_true, if_false, reduceIte]

/-- The effect fold leaves the event log untouched. -/
theorem effectFold_events (tech : TechniqueDef) (target_id : String) :
    ∀ (effects : List Effect) (st : SimulationState × List (String × String)),
      ((effects.foldl (applyOneEffect tech target_id) st).1.events = st.1.events) := by
  intro effects
  induction effects with
  | nil => intro st; rfl
  | cons e es ih =>
      intro st
      rw [List.foldl_cons, ih, applyOneEffect_events]

/-- `_apply_effects` leaves the event log untouched. -/
theorem applyEffects_events (tech : TechniqueDef) (target_id : String)
    (gene : AttackGene) (s : SimulationState) :
    (applyEffects tech target_id gene s).1.events = s.events := by
  unfold applyEffects
  exact effectFold_events tech target_id tech.effects (s, [])

/-- A successful step appends exactly its success event. -/
theorem newEvents_success (acc : StepAcc) (r : Rng) (stepIdx : Nat)
    (tech : TechniqueDef) (target : String) (gene : AttackGene) :
    newEvents acc (simStepSuccess acc r stepIdx tech target gene) =
      [{ step := stepIdx, technique_id := tech.id, target_host := target,
         outcome := EventOutcome.success,
         effects := (applyEffects tech target gene acc.state).2 }] := by
  simp [newEvents, simStepSuccess, SimulationState.recordEvent,
    applyEffects_events, List.drop_left]

/-- C1: for every engine step, if the step's recorded outcome is detected
then no effect is applied (compromised hosts, obtained credentials,
exfiltration flag, persistence set, network hosts and the success counter
are all unchanged); and if the outcome is success then no detection is
recorded for that step. -/
theorem C1_detected_no_effects_success_undetected
    (reg : List TechniqueDef) (defender : DefenseGenome) (stepIdx : Nat)
    (gene : AttackGene) (acc : StepAcc) (e : SimEvent)
    (hmem : e ∈ newEvents acc (simStep reg defender stepIdx gene acc)) :
    (e.outcome = EventOutcome.detected →
      (simStep reg defender stepIdx gene acc).state.compromised_hosts =
          acc.state.compromised_hosts ∧
      (simStep reg defender stepIdx gene acc).state.obtained_credentials =
          acc.state.obtained_credentials ∧
      (simStep reg defender stepIdx gene acc).state.data_exfiltrated =
          acc.state.data_exfiltrated ∧
      (simStep reg defender stepIdx gene acc).state.persistence_hosts =
          acc.state.persistence_hosts ∧
      (simStep reg defender stepIdx gene acc).state.network = acc.state.network ∧
      (simStep reg defender stepIdx gene acc).successful = acc.successful) ∧
    (e.outcome = EventOutcome.success →
      (simStep reg defender stepIdx gene acc).detected = acc.detected) := by
  rcases simStep_shape reg defender stepIdx gene acc with
    ⟨r, e', hout, heq⟩ | ⟨r, tech, target, mr, heq⟩ | ⟨r, tech, target, heq⟩
  · rw [heq] at hmem ⊢
    rw [newEvents_fail] at hmem
    simp only [List.mem_singleton] at hmem
    subst hmem
    rw [hout]
    exact ⟨fun hc => absurd hc (by simp), fun hc => absurd hc (by simp)⟩
  · rw [heq] at hmem ⊢
    rw [newEvents_detected] at hmem
    simp only [List.mem_singleton] at hmem
    subst hmem
    obtain ⟨hc, ho, hx, hp, hn, hev⟩ :=
      applyResponse_preserves mr.response_action target acc.state
    constructor
    · intro _
      dsimp only [simStepDetected, SimulationState.recordEvent]
      exact ⟨hc, ho, hx, hp, hn, rfl⟩
    · intro hcon
      exact absurd hcon (by simp)
  · rw [heq] at hmem ⊢
    rw [newEvents_success] at hmem
    simp only [List.mem_singleton] at hmem
    subst hmem
    constructor
    · intro hcon
      exact absurd hcon (by simp)
    · intro _
      dsimp only [simStepSuccess]

/-- C1 witness: a concrete one-gene matchup in which the step is detected
(full-confidence rule, zero stealth), with no effect applied to the state. -/
theorem C1_detected_no_effects_success_undetected_witness :
    eventC1 ∈ newEvents accC1 (simStep regC1 defenderC1 0 geneC1 accC1) ∧
    ((simStep regC1 defenderC1 0 geneC1 accC1).state.compromised_hosts =
        accC1.state.compromised_hosts ∧
      (simStep regC1 defenderC1 0 geneC1 accC1).state.obtained_credentials =
        accC1.state.obtained_credentials ∧
      (simStep regC1 defenderC1 0 geneC1 accC1).state.data_exfiltrated =
        accC1.state.data_exfiltrated ∧
      (simStep regC1 defenderC1 0 geneC1 accC1).state.persistence_hosts =
        accC1.state.persistence_hosts ∧
      (simStep regC1 defenderC1 0 geneC1 accC1).state.network = accC1.state.network ∧
      (simStep regC1 defenderC1 0 geneC1 accC1).successful = accC1.successful) := by
  have hres : resolveTarget geneC1 stateC1 techC1 rngZero = (Option.some "h1", rngAt 1) := by
    simp [resolveTarget, geneC1, stateC1, netC1, techC1,
      SimulationState.getReachableHosts, NetworkGraph.getReachable,
      Rng.choice, Rng.nextNat, rngZero, rngAt]
  have hdet : checkDetection "TA" 0 defenderC1 0 (rngAt 2) =
      ((true, Option.some ruleC1), rngAt 3) := by
    simp only [checkDetection, DefenseGenome.getDetectionProbability,
      DefenseGenome.getDetectionGenes, defenderC1, ruleC1, Rng.nextUnit,
      clampUnit, rngAt]
    norm_num
    simp
  have hacc_state : accC1.state = stateC1 := rfl
  have hacc_rng : accC1.rng = rngZero := rfl
  have hgid : geneC1.technique_id = "TA" := rfl
  have hreg : regGetD regC1 "TA" = techC1 := rfl
  have hfb : geneC1.fallback_technique = Option.none := rfl
  have hpre : checkPreconditions techC1 "h1" stateC1 = true := rfl
  have hnext : (rngAt 1).nextUnit = ((0 : ℚ), rngAt 2) := by
    simp [Rng.nextUnit, clampUnit, rngAt]
  have hsm : geneC1.stealth_modifier = 0 := rfl
  have hsb : stateC1.stealth_bonus = 0 := rfl
  have hmin : ((1:ℚ) ⊓ (0 + 0)) = 0 := by norm_num
  have hdr : stateC1.detection_reduction = [] := rfl
  have halist : alistGetD [] "h1" 0 = 0 := rfl
  have hbsr : techC1.base_success_rate = 1 := rfl
  have hroll : ¬((0:ℚ) > 1) := by norm_num
  have htid : techC1.id = "TA" := rfl
  have hstep : simStep regC1 defenderC1 0 geneC1 accC1 =
      simStepDetected accC1 (rngAt 3) 0 techC1 "h1" ruleC1 := by
    simp only [simStep, hacc_state, hacc_rng, hgid, hreg, hres, hfb, hpre,
      hnext, hsm, hsb, hmin, hdr, halist, hbsr, hroll, htid, hdet,
      if_true, if_false, ite_true, ite_false, reduceIte]
  have hmem : eventC1 ∈ newEvents accC1 (simStep regC1 defenderC1 0 geneC1 accC1) := by
    rw [hstep, newEvents_detected]
    simp [eventC1, techC1, ruleC1, responseActionString]
  exact ⟨hmem,
    (C1_detected_no_effects_success_undetected regC1 defenderC1 0 geneC1 accC1
      eventC1 hmem).1 rfl⟩

/-- A choice from a non-empty list is a member of it. -/
theorem Rng.choice_mem {α : Type} (xs : List α) (d : α) (r : Rng) (h : xs ≠ []) :
    (Rng.choice xs d r).1 ∈ xs := by
  unfold Rng.choice Rng.nextNat
  dsimp only
  have hlen : 0 < xs.length := List.length_pos.mpr h
  have hi : (r.nats r.idx) % xs.length < xs.length := Nat.mod_lt _ hlen
  rw [List.getD_eq_getElem _ _ hi]
  exact List.getElem_mem hi

/-- `randint a b` stays within its inclusive bounds when `a ≤ b`. -/
theorem Rng.randint_bounds (a b : Nat) (r : Rng) (h : a ≤ b) :
    a ≤ (Rng.randint a b r).1 ∧ (Rng.randint a b r).1 ≤ b := by
  unfold Rng.randint Rng.nextNat
  dsimp only
  have hm : (r.nats r.idx) % (b + 1 - a) < b + 1 - a := Nat.mod_lt _ (by omega)
  omega

/-- A unit draw lies in [0, 1]. -/
theorem clampUnit_bounds (q : ℚ) : 0 ≤ clampUnit q ∧ clampUnit q ≤ 1 := by
  unfold clampUnit
  constructor
  · exact le_max_left _ _
  · rcases le_total q 1 with h | h
    · rw [min_eq_left h]
      rcases le_total 0 q with h0 | h0
      · rw [max_eq_right h0]; exact h
      · rw [max_eq_left h0]; norm_num
    · rw [min_eq_right h]
      norm_num
/-- `uniform a b` lies in [a, b] when `a ≤ b`. -/
theorem Rng.uniform_bounds (a b : ℚ) (r : Rng) (h : a ≤ b) :
    a ≤ (Rng.uniform a b r).1 ∧ (Rng.uniform a b r).1 ≤ b := by
  unfold Rng.uniform Rng.nextUnit
  dsimp only
  obtain ⟨h0, h1⟩ := clampUnit_bounds (r.units r.idx)
  constructor
  · nlinarith
  · nlinarith

/-- Rounding to two decimals preserves [0, n/100] bounds. -/
theorem pyRound2_bounds (n : ℤ) (q : ℚ) (h0 : 0 ≤ q) (hn : q ≤ (n : ℚ) / 100) :
    0 ≤ pyRound2 q ∧ pyRound2 q ≤ (n : ℚ) / 100 := by
  unfold pyRound2
  have hr := round_eq (q * 100)
  have hlo : (0 : ℤ) ≤ round (q * 100) := by
    rw [hr, show (0:ℤ) = ⌊(0:ℚ) + 1/2⌋ by norm_num]
    exact Int.floor_mono (by nlinarith)
  have hhi : round (q * 100) ≤ n := by
    rw [hr]
    have h1 : q * 100 + 1/2 ≤ 1/2 + (n:ℚ) := by nlinarith
    calc ⌊q * 100 + 1/2⌋ ≤ ⌊1/2 + (n:ℚ)⌋ := Int.floor_mono h1
      _ = ⌊(1/2 : ℚ)⌋ + n := Int.floor_add_int _ _
      _ = n := by norm_num
  have hcast0 : (0:ℚ) ≤ ((round (q*100) : ℤ) : ℚ) := by exact_mod_cast hlo
  have hcastn : ((round (q*100) : ℤ) : ℚ) ≤ (n : ℚ) := by exact_mod_cast hhi
  constructor
  · positivity
  · gcongr

/-- The stealth modifier drawn by a random gene lies in [0, 1]. -/
theorem stealthDraw_bounds (r : Rng) :
    0 ≤ pyRound2 ((Rng.uniform 0 (1/2) r).1) ∧
      pyRound2 ((Rng.uniform 0 (1/2) r).1) ≤ 1 := by
  obtain ⟨h0, h1⟩ := Rng.uniform_bounds 0 (1/2) r (by norm_num)
  obtain ⟨hlo, hhi⟩ := pyRound2_bounds 50 _ h0 (by push_cast; linarith)
  refine ⟨hlo, ?_⟩
  have : ((50 : ℤ) : ℚ) / 100 = 1/2 := by norm_num
  linarith [this ▸ hhi]

/-- The stealth field produced by `randGeneFields` lies in [0, 1]. -/
theorem randGeneFields_stealth (r : Rng) :
    0 ≤ (randGeneFields r).2.2.1 ∧ (randGeneFields r).2.2.1 ≤ 1 := by
  unfold randGeneFields
  dsimp only
  exact stealthDraw_bounds _

/-- The catalog's technique ids are pairwise distinct. -/
theorem catalog_ids_nodup : (catalogTechniques.map (fun td => td.id)).Nodup := by
  decide

/-- The catalog contains initial-access techniques. -/
theorem catalog_ia_length : 0 < (getInitialAccess catalogTechniques).length := by
  decide

/-- Every post-initial-access tactic has catalog entries. -/
theorem catalog_postIa_length :
    ∀ t ∈ postIaTactics, 0 < (getByTactic catalogTechniques t).length := by
  decide

/-- Filter characterization of `get_by_tactic`. -/
theorem mem_getByTactic {reg : List TechniqueDef} {t : Tactic} {td : TechniqueDef} :
    td ∈ getByTactic reg t ↔ td ∈ reg ∧ td.tactic = t := by
  unfold getByTactic
  simp [List.mem_filter]

/-- With pairwise-distinct ids, registry lookup of a member's id returns
that member. -/
theorem regFind?_eq_of_mem :
    ∀ (reg : List TechniqueDef), (reg.map (fun td => td.id)).Nodup →
      ∀ td ∈ reg, regFind? reg td.id = some td := by
  intro reg
  induction reg with
  | nil => intro _ td h; cases h
  | cons h t ih =>
      intro hnodup td hmem
      rw [List.map_cons, List.nodup_cons] at hnodup
      rcases List.mem_cons.mp hmem with rfl | hmem'
      · unfold regFind?
        simp [List.find?]
      · have hne : ¬ (h.id = td.id) := by
          intro hEq
          exact hnodup.1 (hEq ▸ List.mem_map_of_mem _ hmem')
        unfold regFind?
        rw [List.find?_cons_of_neg _ (by simp [hne])]
        exact ih hnodup.2 td hmem'

/-- One unfolding of the chain-extension loop over the catalog: the step
appends a single well-formed gene and recurses. -/
theorem buildChainGenes_succ (n : Nat) (genes : List AttackGene) (r : Rng) :
    ∃ (g : AttackGene) (r' : Rng),
      buildChainGenes catalogTechniques (n + 1) genes r =
        buildChainGenes catalogTechniques n (genes ++ [g]) r' ∧ geneOk g := by
  have htac : (Rng.choice postIaTactics Tactic.execution r).1 ∈ postIaTactics :=
    Rng.choice_mem _ _ _ (by decide)
  have hlen := catalog_postIa_length _ htac
  have hne : getByTactic catalogTechniques
      (Rng.choice postIaTactics Tactic.execution r).1 ≠ [] :=
    List.length_pos.mp hlen
  have hcand : (getByTactic catalogTechniques
      (Rng.choice postIaTactics Tactic.execution r).1).isEmpty = false := by
    rw [List.isEmpty_eq_false_iff_exists_mem]
    exact List.exists_mem_of_length_pos hlen
  rw [show buildChainGenes catalogTechniques (n + 1) genes r =
      (let (tac, r1) := Rng.choice postIaTactics Tactic.execution r
       let candidates := getByTactic catalogTechniques tac
       if candidates.isEmpty then buildChainGenes catalogTechniques n genes r1
       else
         let (tech, r2) := Rng.choice candidates dummyTechnique r1
         let (sel, role, sv, r3) := randGeneFields r2
         buildChainGenes catalogTechniques n
           (genes ++ [{ technique_id := tech.id, target_selector := sel,
                        target_role := role, stealth_modifier := sv }]) r3) from rfl]
  dsimp only
  rw [hcand]
  simp only [Bool.false_eq_true, if_false]
  refine ⟨_, _, rfl, ?_, ?_, ?_⟩
  · exact ⟨_, (mem_getByTactic.mp (Rng.choice_mem _ dummyTechnique _ hne)).1, rfl⟩
  · exact (randGeneFields_stealth _).1
  · exact (randGeneFields_stealth _).2

/-- The chain-extension loop over the catalog appends exactly `n`
well-formed genes. -/
theorem buildChainGenes_spec :
    ∀ (n : Nat) (genes : List AttackGene) (r : Rng),
      ∃ suffix, (buildChainGenes catalogTechniques n genes r).1 = genes ++ suffix ∧
        suffix.length = n ∧ ∀ g ∈ suffix, geneOk g := by
  intro n
  induction n with
  | zero =>
      intro genes r
      exact ⟨[], by rw [List.append_nil]; rfl, rfl, by simp⟩
  | succ n ih =>
      intro genes r
      obtain ⟨g, r', heq, hgok⟩ := buildChainGenes_succ n genes r
      obtain ⟨suffix, hsuf, hslen, hok⟩ := ih (genes ++ [g]) r'
      refine ⟨g :: suffix, ?_, by simp [hslen], ?_⟩
      · rw [heq, hsuf]
        simp
      · intro x hx
        rcases List.mem_cons.mp hx with rfl | hx'
        · exact hgok
        · exact hok x hx'

/-- Assembling an initial-access gene with a chain extension of length
in [2, max − 1] yields a genome satisfying the invariants. -/
theorem chainAssembly_inv (g0 : AttackGene) (cl : Nat) (r3 : Rng) (ml : Nat)
    (hg0 : geneOk g0)
    (hia : ∃ td ∈ catalogTechniques,
      td.id = g0.technique_id ∧ td.tactic = Tactic.initial_access)
    (hcl1 : 2 ≤ cl) (hcl2 : cl ≤ min 8 (ml - 1)) (hml : 3 ≤ ml) :
    AttackerInv { genes := (buildChainGenes catalogTechniques cl [g0] r3).1,
                  max_length := ml } := by
  obtain ⟨suffix, hsuf, hslen, hok⟩ := buildChainGenes_spec cl [g0] r3
  refine ⟨?_, ?_, ?_, ?_⟩ <;> dsimp only
  · rw [hsuf]
    simp only [List.length_append, List.length_singleton, hslen]
    omega
  · rw [hsuf]
    simp only [List.length_append, List.length_singleton, hslen]
    omega
  · intro gene hmem
    rw [hsuf] at hmem
    rcases List.mem_append.mp hmem with hl | hr
    · rcases List.mem_singleton.mp hl with rfl
      exact hg0
    · exact hok gene hr
  · rw [hsuf]
    refine ⟨g0, ?_, hia⟩
    simp [List.singleton_append]

/-- `create_random_attacker` over the catalog satisfies the genome
invariants whenever the configured maximum chain length is at least 3. -/
theorem createRandomAttacker_inv (cfg : Config) (r : Rng)
    (hcfg : 3 ≤ cfg.max_attack_chain_length) :
    AttackerInv (createRandomAttacker catalogTechniques cfg r).1 := by
  have hia_ne : getInitialAccess catalogTechniques ≠ [] :=
    List.length_pos.mp catalog_ia_length
  unfold createRandomAttacker
  dsimp only
  apply chainAssembly_inv
  · refine ⟨⟨_, ?_, rfl⟩, ?_, ?_⟩
    · exact (mem_getByTactic.mp (Rng.choice_mem _ dummyTechnique _ hia_ne)).1
    · exact (randGeneFields_stealth _).1
    · exact (randGeneFields_stealth _).2
  · refine ⟨_, (mem_getByTactic.mp (Rng.choice_mem _ dummyTechnique _ hia_ne)).1,
      rfl, (mem_getByTactic.mp (Rng.choice_mem _ dummyTechnique _ hia_ne)).2⟩
  · exact (Rng.randint_bounds 2 _ _ (by omega)).1
  · exact (Rng.randint_bounds 2 _ _ (by omega)).2
  · exact hcfg

/-- The crossover child gene list — tail swap, truncation to the parent's
maximum, minimum-size restore — has length in [2, max] and only
well-formed genes when both parents do. -/
theorem crossChild_bounds (xs ys : List AttackGene) (ml pt1 pt2 : Nat)
    (hxs2 : 2 ≤ xs.length) (hml : xs.length ≤ ml)
    (hokx : ∀ g ∈ xs, geneOk g) (hoky : ∀ g ∈ ys, geneOk g) :
    2 ≤ (if ((xs.take pt1 ++ ys.drop pt2).take ml).length < 2 then
           if 2 ≤ xs.length then xs.take 2 else xs
         else (xs.take pt1 ++ ys.drop pt2).take ml).length ∧
    (if ((xs.take pt1 ++ ys.drop pt2).take ml).length < 2 then
       if 2 ≤ xs.length then xs.take 2 else xs
     else (xs.take pt1 ++ ys.drop pt2).take ml).length ≤ ml ∧
    ∀ g ∈ (if ((xs.take pt1 ++ ys.drop pt2).take ml).length < 2 then
             if 2 ≤ xs.length then xs.take 2 else xs
           else (xs.take pt1 ++ ys.drop pt2).take ml), geneOk g := by
  by_cases hsmall : ((xs.take pt1 ++ ys.drop pt2).take ml).length < 2
  · rw [if_pos hsmall, if_pos hxs2]
    have hlen : (xs.take 2).length = 2 := by
      rw [List.length_take]
      omega
    refine ⟨by omega, by omega, ?_⟩
    intro g hg
    exact hokx g (List.mem_of_mem_take hg)
  · rw [if_neg hsmall]
    refine ⟨by omega, by simp [List.length_take], ?_⟩
    intro g hg
    rcases List.mem_append.mp (List.mem_of_mem_take hg) with h | h
    · exact hokx g (List.mem_of_mem_take h)
    · exact hoky g (List.mem_of_mem_drop h)

/-- Initial-access repair restores the genome invariants for any gene list
of length in [2, max] with well-formed genes, given an invariant-satisfying
template. -/
theorem repairInitialAccess_inv (genes : List AttackGene) (ml : Nat)
    (template : AttackGenome)
    (h2 : 2 ≤ genes.length) (hm : genes.length ≤ ml)
    (hok : ∀ g ∈ genes, geneOk g) (htp : AttackerInv template) :
    AttackerInv (repairInitialAccess catalogTechniques
      { genes := genes, max_length := ml } template) := by
  obtain ⟨ht2, _, htok, t0, ht0, tdT, htdT, htdTid, htdTtac⟩ := htp
  obtain ⟨t0', ttail, htg⟩ : ∃ t0' ttail, template.genes = t0' :: ttail := by
    cases hg : template.genes with
    | nil => rw [hg] at ht2; simp at ht2
    | cons a l => exact ⟨a, l, rfl⟩
  have ht0' : t0 = t0' := by
    rw [htg] at ht0
    simpa using ht0
  obtain ⟨g0, rest, hge⟩ : ∃ g0 rest, genes = g0 :: rest := by
    cases hg : genes with
    | nil => rw [hg] at h2; simp at h2
    | cons a l => exact ⟨a, l, rfl⟩
  subst hge
  have htake1 : template.genes.take 1 = [t0'] := by rw [htg]; rfl
  have hrepl : AttackerInv (AttackGenome.mk (template.genes.take 1 ++ rest) ml) := by
    refine ⟨?_, ?_, ?_, ?_⟩ <;> dsimp only
    · rw [htake1]
      simp only [List.length_append, List.length_singleton]
      simp only [List.length_cons] at h2
      omega
    · rw [htake1]
      simp only [List.length_append, List.length_singleton]
      simp only [List.length_cons] at hm
      omega
    · intro g hg
      rw [htake1] at hg
      rcases List.mem_append.mp hg with hl | hr
      · rcases List.mem_singleton.mp hl with rfl
        exact htok _ (htg ▸ List.mem_cons_self _ _)
      · exact hok g (List.mem_cons_of_mem _ hr)
    · rw [htake1]
      exact ⟨t0', by simp [List.singleton_append], tdT, htdT, ht0' ▸ htdTid, htdTtac⟩
  unfold repairInitialAccess
  dsimp only
  rcases hfind : regFind? catalogTechniques g0.technique_id with _ | td
  · exact hrepl
  · dsimp only
    by_cases htac : td.tactic = Tactic.initial_access
    · rw [if_pos htac]
      refine ⟨?_, ?_, ?_, ?_⟩ <;> dsimp only
      · exact h2
      · exact hm
      · exact hok
      · have hfind' : catalogTechniques.find?
            (fun x => decide (x.id = g0.technique_id)) = some td := hfind
        refine ⟨g0, by simp, td, ?_, ?_, htac⟩
        · exact List.mem_of_find?_eq_some hfind'
        · have hpr := List.find?_some hfind'
          simpa using hpr
    · rw [if_neg htac]
      exact hrepl

/-- `crossover_attack` preserves the genome invariants for both children. -/
theorem crossoverAttack_inv (g1 g2 : AttackGenome) (r : Rng)
    (h1 : AttackerInv g1) (h2 : AttackerInv g2) :
    AttackerInv (crossoverAttack g1 g2 r).1 ∧
      AttackerInv (crossoverAttack g1 g2 r).2.1 := by
  have hb1 := crossChild_bounds g1.genes g2.genes g1.max_length
    (Rng.randint 1 (max 1 (g1.genes.length - 1)) r).1
    (Rng.randint 1 (max 1 (g2.genes.length - 1))
      (Rng.randint 1 (max 1 (g1.genes.length - 1)) r).2).1
    h1.1 h1.2.1 h1.2.2.1 h2.2.2.1
  have hb2 := crossChild_bounds g2.genes g1.genes g2.max_length
    (Rng.randint 1 (max 1 (g2.genes.length - 1))
      (Rng.randint 1 (max 1 (g1.genes.length - 1)) r).2).1
    (Rng.randint 1 (max 1 (g1.genes.length - 1)) r).1
    h2.1 h2.2.1 h2.2.2.1 h1.2.2.1
  unfold crossoverAttack
  dsimp only
  constructor
  · exact repairInitialAccess_inv _ _ _ hb1.1 hb1.2.1 hb1.2.2 h1
  · exact repairInitialAccess_inv _ _ _ hb2.1 hb2.2.1 hb2.2.2 h2

/-- A defaulted index read inside bounds is a member of the list. -/
theorem getD_mem {l : List AttackGene} {i : Nat} (h : i < l.length) :
    l.getD i dummyGene ∈ l := by
  rw [List.getD_eq_getElem _ _ h]
  exact List.getElem_mem _

/-- Replacing one gene preserves the genome invariants when the new gene is
well formed and either the position is not the head or the technique id is
unchanged. -/
theorem AttackerInv_set (ind : AttackGenome) (idx : Nat) (g2 : AttackGene)
    (hInv : AttackerInv ind) (hidx : idx < ind.genes.length) (hok : geneOk g2)
    (hhead : 1 ≤ idx ∨ g2.technique_id = (ind.genes.getD idx dummyGene).technique_id) :
    AttackerInv { ind with genes := ind.genes.set idx g2 } := by
  obtain ⟨h2, hm, hall, g0, hg0, td, htd, hid, htac⟩ := hInv
  refine ⟨?_, ?_, ?_, ?_⟩ <;> dsimp only
  · simpa using h2
  · simpa using hm
  · intro x hx
    rcases List.mem_or_eq_of_mem_set hx with h | rfl
    · exact hall x h
    · exact hok
  · obtain ⟨x, t, hxt⟩ : ∃ x t, ind.genes = x :: t := by
      cases hg : ind.genes with
      | nil => rw [hg] at h2; simp at h2
      | cons a l => exact ⟨a, l, rfl⟩
    rw [hxt] at hg0
    simp only [List.take_succ_cons, List.take_zero, List.mem_singleton] at hg0
    subst hg0
    cases idx with
    | zero =>
        rcases hhead with hge1 | hid2
        · omega
        · rw [hxt]
          refine ⟨g2, by simp, td, htd, ?_, htac⟩
          rw [hxt] at hid2
          simp only [List.getD_cons_zero] at hid2
          rw [hid2, hid]
    | succ n =>
        rw [hxt]
        exact ⟨g0, by simp, td, htd, hid, htac⟩

/-- Inserting a well-formed gene at a non-head position inside bounds
preserves the genome invariants when the genome has room. -/
theorem AttackerInv_insertIdx (ind : AttackGenome) (pos : Nat) (g2 : AttackGene)
    (hInv : AttackerInv ind) (hpos1 : 1 ≤ pos) (hposle : pos ≤ ind.genes.length)
    (hlt : ind.genes.length < ind.max_length) (hok : geneOk g2) :
    AttackerInv { ind with genes := ind.genes.insertIdx pos g2 } := by
  obtain ⟨h2, hm, hall, g0, hg0, td, htd, hid, htac⟩ := hInv
  have hlen : (ind.genes.insertIdx pos g2).length = ind.genes.length + 1 := by
    rw [List.length_insertIdx]
    simp [hposle]
  refine ⟨?_, ?_, ?_, ?_⟩ <;> dsimp only
  · omega
  · omega
  · intro x hx
    rcases (List.mem_insertIdx hposle).mp hx with rfl | h
    · exact hok
    · exact hall x h
  · obtain ⟨x, t, hxt⟩ : ∃ x t, ind.genes = x :: t := by
      cases hg : ind.genes with
      | nil => rw [hg] at h2; simp at h2
      | cons a l => exact ⟨a, l, rfl⟩
    obtain ⟨n, rfl⟩ : ∃ n, pos = n + 1 := ⟨pos - 1, by omega⟩
    rw [hxt]
    rw [hxt] at hg0
    simp only [List.take_succ_cons, List.take_zero, List.mem_singleton] at hg0
    subst hg0
    exact ⟨g0, by simp [List.insertIdx_succ_cons], td, htd, hid, htac⟩

/-- Removing a non-head gene inside bounds preserves the genome invariants
when at least three genes remain beforehand. -/
theorem AttackerInv_eraseIdx (ind : AttackGenome) (idx : Nat)
    (hInv : AttackerInv ind) (h3 : 2 < ind.genes.length) (hidx1 : 1 ≤ idx)
    (hidxlt : idx < ind.genes.length) :
    AttackerInv { ind with genes := ind.genes.eraseIdx idx } := by
  obtain ⟨h2, hm, hall, g0, hg0, td, htd, hid, htac⟩ := hInv
  have hlen : (ind.genes.eraseIdx idx).length = ind.genes.length - 1 :=
    List.length_eraseIdx_of_lt hidxlt
  refine ⟨?_, ?_, ?_, ?_⟩ <;> dsimp only
  · omega
  · omega
  · intro x hx
    exact hall x (List.mem_of_mem_eraseIdx hx)
  · obtain ⟨x, t, hxt⟩ : ∃ x t, ind.genes = x :: t := by
      cases hg : ind.genes with
      | nil => rw [hg] at h2; simp at h2
      | cons a l => exact ⟨a, l, rfl⟩
    obtain ⟨n, rfl⟩ : ∃ n, idx = n + 1 := ⟨idx - 1, by omega⟩
    rw [hxt]
    rw [hxt] at hg0
    simp only [List.take_succ_cons, List.take_zero, List.mem_singleton] at hg0
    subst hg0
    exact ⟨g0, by simp [List.eraseIdx_cons_succ], td, htd, hid, htac⟩

/-- A well-formed gene's technique resolves in the registry to a catalog
entry with its id. -/
theorem regFind?_of_geneOk (g : AttackGene) (hok : geneOk g) :
    ∃ td ∈ catalogTechniques,
      regFind? catalogTechniques g.technique_id = some td ∧
        td.id = g.technique_id := by
  obtain ⟨⟨td, hmem, hid⟩, _⟩ := hok
  exact ⟨td, hmem, hid ▸ regFind?_eq_of_mem _ catalog_ids_nodup td hmem, hid⟩

/-- A clamped and rounded stealth adjustment stays in [0, 1]. -/
theorem stealthAdjust_bounds (x delta : ℚ) :
    0 ≤ pyRound2 (max 0 (min 1 (x + delta))) ∧
      pyRound2 (max 0 (min 1 (x + delta))) ≤ 1 := by
  have h0 : (0 : ℚ) ≤ max 0 (min 1 (x + delta)) := le_max_left _ _
  have h1 : max 0 (min 1 (x + delta)) ≤ 1 := max_le (by norm_num) (min_le_left _ _)
  obtain ⟨ha, hb⟩ := pyRound2_bounds 100 _ h0 (by push_cast; linarith)
  refine ⟨ha, ?_⟩
  have hc : ((100 : ℤ) : ℚ) / 100 = 1 := by norm_num
  linarith [hc ▸ hb]

/-- Swapping two non-head genes preserves the genome invariants. -/
theorem AttackerInv_swap (ind : AttackGenome) (i j : Nat) (hInv : AttackerInv ind)
    (hi1 : 1 ≤ i) (hile : i ≤ ind.genes.length - 1)
    (hj1 : 1 ≤ j) (hjle : j ≤ ind.genes.length - 1) :
    AttackerInv (AttackGenome.mk
      ((ind.genes.set i (ind.genes.getD j dummyGene)).set j
        (ind.genes.getD i dummyGene)) ind.max_length) := by
  have h2 : 2 ≤ ind.genes.length := hInv.1
  have hilt : i < ind.genes.length := by omega
  have hjlt : j < ind.genes.length := by omega
  have hgi : geneOk (ind.genes.getD i dummyGene) := hInv.2.2.1 _ (getD_mem hilt)
  have hgj : geneOk (ind.genes.getD j dummyGene) := hInv.2.2.1 _ (getD_mem hjlt)
  have hmid := AttackerInv_set ind i _ hInv hilt hgj (Or.inl hi1)
  have hjlt2 : j < (AttackGenome.mk
      (ind.genes.set i (ind.genes.getD j dummyGene)) ind.max_length).genes.length := by
    dsimp only
    rw [List.length_set]
    omega
  exact AttackerInv_set _ j _ hmid hjlt2 hgi (Or.inl hj1)

/-- Replacing a non-head gene's technique with another catalog technique id
preserves the genome invariants. -/
theorem AttackerInv_setTech (ind : AttackGenome) (idx : Nat) (tid : String)
    (hInv : AttackerInv ind) (hi1 : 1 ≤ idx) (hile : idx ≤ ind.genes.length - 1)
    (htid : ∃ td ∈ catalogTechniques, td.id = tid) :
    AttackerInv (AttackGenome.mk (ind.genes.set idx
      { ind.genes.getD idx dummyGene with technique_id := tid }) ind.max_length) := by
  have h2 : 2 ≤ ind.genes.length := hInv.1
  have hidx : idx < ind.genes.length := by omega
  have hg : geneOk (ind.genes.getD idx dummyGene) := hInv.2.2.1 _ (getD_mem hidx)
  obtain ⟨td, hmem, hid⟩ := htid
  exact AttackerInv_set ind idx _ hInv hidx ⟨⟨td, hmem, hid⟩, hg.2⟩ (Or.inl hi1)

/-- Re-drawing a technique from the tactic of a well-formed gene's current
technique yields a catalog technique. -/
theorem chooseSameTactic_mem (g : AttackGene) (hok : geneOk g) (r1 : Rng) :
    ∃ td ∈ catalogTechniques,
      td.id = (Rng.choice (getByTactic catalogTechniques
        (regGetD catalogTechniques g.technique_id).tactic) dummyTechnique r1).1.id := by
  obtain ⟨td, hmem, hfind, hid⟩ := regFind?_of_geneOk g hok
  have hgd : regGetD catalogTechniques g.technique_id = td := by
    unfold regGetD
    rw [hfind]
    rfl
  rw [hgd]
  have htdmem : td ∈ getByTactic catalogTechniques td.tactic :=
    mem_getByTactic.mpr ⟨hmem, rfl⟩
  have hne : getByTactic catalogTechniques td.tactic ≠ [] :=
    List.ne_nil_of_mem htdmem
  exact ⟨_, (mem_getByTactic.mp (Rng.choice_mem _ dummyTechnique r1 hne)).1, rfl⟩

/-- Retargeting one gene (selector and role) preserves the genome
invariants. -/
theorem AttackerInv_setSel (ind : AttackGenome) (idx : Nat) (sel : TargetSelector)
    (role : Option HostRole) (hInv : AttackerInv ind)
    (hile : idx ≤ ind.genes.length - 1) :
    AttackerInv (AttackGenome.mk (ind.genes.set idx
      { ind.genes.getD idx dummyGene with target_selector := sel, target_role := role })
      ind.max_length) := by
  have h2 : 2 ≤ ind.genes.length := hInv.1
  have hidx : idx < ind.genes.length := by omega
  have hg : geneOk (ind.genes.getD idx dummyGene) := hInv.2.2.1 _ (getD_mem hidx)
  exact AttackerInv_set ind idx _ hInv hidx ⟨hg.1, hg.2⟩ (Or.inr rfl)

/-- Adjusting one gene's stealth modifier by a clamped, rounded delta
preserves the genome invariants. -/
theorem AttackerInv_setStealth (ind : AttackGenome) (idx : Nat) (delta : ℚ)
    (hInv : AttackerInv ind) (hile : idx ≤ ind.genes.length - 1) :
    AttackerInv (AttackGenome.mk (ind.genes.set idx
      (AttackGene.mk (ind.genes.getD idx dummyGene).technique_id
        (ind.genes.getD idx dummyGene).target_selector
        (ind.genes.getD idx dummyGene).target_role
        (ind.genes.getD idx dummyGene).fallback_technique
        (pyRound2 (max 0
          (min 1 ((ind.genes.getD idx dummyGene).stealth_modifier + delta))))))
      ind.max_length) := by
  have h2 : 2 ≤ ind.genes.length := hInv.1
  have hidx : idx < ind.genes.length := by omega
  have hg : geneOk (ind.genes.getD idx dummyGene) := hInv.2.2.1 _ (getD_mem hidx)
  exact AttackerInv_set ind idx _ hInv hidx
    ⟨hg.1, (stealthAdjust_bounds _ _).1, (stealthAdjust_bounds _ _).2⟩ (Or.inr rfl)

/-- `mutate_attack` over the catalog preserves the genome invariants. -/
theorem mutateAttack_inv (ind : AttackGenome) (cfg : Config) (r : Rng)
    (hInv : AttackerInv ind) :
    AttackerInv (mutateAttack ind catalogTechniques cfg r).1 := by
  have h2 : 2 ≤ ind.genes.length := hInv.1
  unfold mutateAttack
  dsimp only
  split
  · -- add_gene
    rename_i hcond
    split
    · exact hInv
    · rename_i hne
      dsimp only
      apply AttackerInv_insertIdx ind _ _ hInv ?_ ?_ hcond.2 ?_
      · exact (Rng.randint_bounds 1 _ _ (by omega)).1
      · exact (Rng.randint_bounds 1 _ _ (by omega)).2
      · refine ⟨⟨_, ?_, rfl⟩, (randGeneFields_stealth _).1, (randGeneFields_stealth _).2⟩
        refine (mem_getByTactic.mp (Rng.choice_mem _ dummyTechnique _ ?_)).1
        intro hh
        exact hne (by rw [hh]; rfl)
  · rename_i hnc1
    split
    · -- remove_gene
      rename_i hcond
      dsimp only
      apply AttackerInv_eraseIdx ind _ hInv hcond.2 ?_ ?_
      · exact (Rng.randint_bounds 1 _ _ (by omega)).1
      · exact lt_of_le_of_lt (Rng.randint_bounds 1 _ _ (by omega)).2 (by omega)
    · rename_i hnc2
      split
      · -- swap_genes
        rename_i hcond
        dsimp only
        apply AttackerInv_swap ind _ _ hInv ?_ ?_ ?_ ?_
        · exact (Rng.randint_bounds 1 _ _ (by omega)).1
        · exact (Rng.randint_bounds 1 _ _ (by omega)).2
        · exact (Rng.randint_bounds 1 _ _ (by omega)).1
        · exact (Rng.randint_bounds 1 _ _ (by omega)).2
      · rename_i hnc3
        split
        · -- modify_technique
          rename_i hcond
          split
          · try dsimp only
            split
            · -- idx = 0: impossible, randint lower bound is 1
              rename_i heq0
              exact absurd heq0
                (Nat.one_le_iff_ne_zero.mp ((Rng.randint_bounds 1 _ _ (by omega)).1))
            · dsimp only
              apply AttackerInv_setTech ind _ _ hInv ?_ ?_ ?_
              · exact (Rng.randint_bounds 1 _ _ (by omega)).1
              · exact (Rng.randint_bounds 1 _ _ (by omega)).2
              · refine chooseSameTactic_mem _ ?_ _
                refine hInv.2.2.1 _ (getD_mem ?_)
                exact lt_of_le_of_lt (Rng.randint_bounds 1 _ _ (by omega)).2 (by omega)
          · rename_i hlen1
            exact absurd (by omega : 1 < ind.genes.length) hlen1
        · rename_i hnc4
          split
          · -- modify_targeting
            rename_i hcond
            try dsimp only
            split
            · dsimp only
              apply AttackerInv_setSel ind _ _ _ hInv ?_
              exact (Rng.randint_bounds 0 _ _ (by omega)).2
            · dsimp only
              apply AttackerInv_setSel ind _ _ _ hInv ?_
              exact (Rng.randint_bounds 0 _ _ (by omega)).2
          · rename_i hnc5
            split
            · -- modify_stealth
              rename_i hcond
              dsimp only
              apply AttackerInv_setStealth ind _ _ hInv ?_
              exact (Rng.randint_bounds 0 _ _ (by omega)).2
            · exact hInv

/-- C4: every attacker genome produced by `create_random_attacker` (for a
configured maximum chain length of at least 3), and every genome obtained by
`crossover_attack` (either child) or `mutate_attack` from genomes satisfying
the invariants, satisfies the genome invariants: gene 0's technique has
tactic initial-access, the length is between 2 and the genome's maximum,
every technique id is in the catalog, and every stealth modifier lies in
[0, 1]. -/
theorem C4_attacker_genome_invariants :
    (∀ (cfg : Config) (r : Rng), 3 ≤ cfg.max_attack_chain_length →
      AttackerInv (createRandomAttacker catalogTechniques cfg r).1) ∧
    (∀ (g1 g2 : AttackGenome) (r : Rng), AttackerInv g1 → AttackerInv g2 →
      AttackerInv (crossoverAttack g1 g2 r).1 ∧
        AttackerInv (crossoverAttack g1 g2 r).2.1) ∧
    (∀ (g : AttackGenome) (cfg : Config) (r : Rng), AttackerInv g →
      AttackerInv (mutateAttack g catalogTechniques cfg r).1) :=
  ⟨fun cfg r h => createRandomAttacker_inv cfg r h,
   fun g1 g2 r h1 h2 => crossoverAttack_inv g1 g2 r h1 h2,
   fun g cfg r h => mutateAttack_inv g cfg r h⟩

/-- Witness: the C4 invariants instantiated at concrete genomes, the default
configuration and the zero oracle. -/
theorem C4_attacker_genome_invariants_witness :
    AttackerInv (createRandomAttacker catalogTechniques cfgDefault rngZero).1 ∧
    AttackerInv (crossoverAttack genomeC4a genomeC4b rngZero).1 ∧
    AttackerInv (mutateAttack genomeC4a catalogTechniques cfgDefault rngZero).1 := by
  have hA : AttackerInv genomeC4a := by
    unfold AttackerInv geneOk
    decide
  have hB : AttackerInv genomeC4b := by
    unfold AttackerInv geneOk
    decide
  refine ⟨?_, ?_, ?_⟩
  · exact C4_attacker_genome_invariants.1 cfgDefault rngZero (by decide)
  · exact (C4_attacker_genome_invariants.2.1 genomeC4a genomeC4b rngZero hA hB).1
  · exact C4_attacker_genome_invariants.2.2 genomeC4a cfgDefault rngZero hA
